import Mathlib

/-!
Verification development for the `datatube` repository: a shallow embedding of
`datatube/info.py` (validated property records `ChannelInfo`, `VideoInfo` with
the nested `ChannelInfo.HtmlDict`) and `datatube/stats.py` (the `Stats`
time-series store and the `check_dtypes` / `coerce_dtypes` helpers), together
with theorems settling the specification's claims about them.

Modelling conventions:
* Python exceptions become the `PyErr` sum type; fallible operations return
  `Except PyErr α`.  A `raise` statement is translated to `.error e` at the
  same program point, so an error result corresponds to the Python call
  raising with the receiver left exactly as it was (in the source, every
  `raise` textually precedes any mutation of the receiver).
* `datetime.datetime` becomes `DT`: a naive wall-clock value (an integer
  timestamp) plus an optional UTC offset (`tzinfo`).  Python's order
  comparisons between naive and aware datetimes raise `TypeError`; equality
  between them is `False`; aware datetimes compare by absolute instant.
* The current wall-clock time is passed explicitly as a `now : Int` parameter
  (the UTC instant); `datetime.now()` is `⟨now, none⟩` (naive) and
  `datetime.now(timezone.utc)` is `⟨now, some 0⟩` (aware, offset 0).
* `isinstance` guards on argument kinds are represented by the Lean types of
  the arguments; dynamic wrong-type inputs are outside the embedded state
  space.
-/

/-- Model of the Python exception taxonomy used by the repository. -/
inductive PyErr
  | typeError (msg : String)
  | valueError (msg : String)
  | keyError (msg : String)
  | attributeError (msg : String)
  | runtimeError (msg : String)
  | indexError (msg : String)
  | zeroDivisionError
  | notImplementedError
deriving DecidableEq, Repr

/-- Model of `datetime.datetime`: a naive wall-clock reading plus an optional
UTC offset (`tzinfo`). -/
structure DT where
  naive : Int
  tz : Option Int
deriving DecidableEq, Repr

/-- The absolute UTC instant denoted by a datetime (for an aware value,
wall-clock minus offset; for a naive value, the wall-clock reading itself,
matching a host clock running in UTC). -/
def DT.abs (d : DT) : Int :=
  d.naive - (d.tz.getD 0)

/-- Message of the `TypeError` Python raises when order-comparing a
timezone-naive and a timezone-aware datetime. -/
def dtCmpErrMsg : String :=
  "can't compare offset-naive and offset-aware datetimes"

/-- Python `a < b` on datetimes: naive/aware mismatch raises `TypeError`,
otherwise naive values compare by wall clock and aware values by instant. -/
def pyDtLt (a b : DT) : Except PyErr Bool :=
  match a.tz, b.tz with
  | none, none => .ok (decide (a.naive < b.naive))
  | some _, some _ => .ok (decide (a.abs < b.abs))
  | _, _ => .error (.typeError dtCmpErrMsg)

/-- Python `a > b` on datetimes. -/
def pyDtGt (a b : DT) : Except PyErr Bool :=
  pyDtLt b a

/-- Python `a == b` on datetimes: naive/aware mismatch is `False` (never an
error), same-kind values compare as in `pyDtLt`. -/
def pyDtEq (a b : DT) : Bool :=
  match a.tz, b.tz with
  | none, none => a.naive == b.naive
  | some _, some _ => a.abs == b.abs
  | _, _ => false

theorem pyDtEq_symm (a b : DT) : pyDtEq a b = pyDtEq b a := by
  unfold pyDtEq
  cases a.tz <;> cases b.tz <;> simp [BEq.comm]

theorem pyDtEq_trans {a b c : DT} (h1 : pyDtEq a b = true)
    (h2 : pyDtEq b c = true) : pyDtEq a c = true := by
  unfold pyDtEq at *
  cases ha : a.tz <;> cases hb : b.tz <;> cases hc : c.tz <;> simp_all

/-- Decomposition of `Except.bind` into the success of both stages. -/
theorem except_bind_ok {ε α β : Type} (e : Except ε α) (f : α → Except ε β)
    (b : β) : (e >>= f) = .ok b ↔ ∃ a, e = .ok a ∧ f a = .ok b := by
  cases e with
  | ok a => simp [Bind.bind, Except.bind]
  | error err => simp [Bind.bind, Except.bind]

/-- Python `str.startswith`: the argument is a prefix of the string
(expressed over the underlying character lists, which the kernel can
evaluate). -/
def strStartsWith (s p : String) : Bool :=
  s.data.take p.data.length == p.data

/-! ## Model of `datatube/info.py`

Record attributes are `Option`-valued: `none` models the attribute slot
(`self._x`) not yet existing (`hasattr` is `isSome`).  Constructors assign
every field through its setter, starting from a record with no slots set,
exactly as `__init__` does. -/

/-- Model of `ChannelInfo.HtmlDict`: four HTML string fields plus the
immutability flag inherited from `PropertyDict`. -/
structure HtmlDict where
  immutable : Bool
  about : Option String
  community : Option String
  featured_channels : Option String
  videos : Option String
deriving DecidableEq, Repr

/-- Setter for `HtmlDict.about`: immutability guard, then the string type
guard (represented by the `String` argument type). -/
def HtmlDict.set_about (h : HtmlDict) (new_html : String) :
    Except PyErr HtmlDict :=
  if h.immutable ∧ h.about.isSome then
    .error (.attributeError "cannot reassign `about`: HtmlDict instance is immutable")
  else
    .ok { h with about := some new_html }

/-- Setter for `HtmlDict.community`. -/
def HtmlDict.set_community (h : HtmlDict) (new_html : String) :
    Except PyErr HtmlDict :=
  if h.immutable ∧ h.community.isSome then
    .error (.attributeError "cannot reassign `community`: HtmlDict instance is immutable")
  else
    .ok { h with community := some new_html }

/-- Setter for `HtmlDict.featured_channels`. -/
def HtmlDict.set_featured_channels (h : HtmlDict) (new_html : String) :
    Except PyErr HtmlDict :=
  if h.immutable ∧ h.featured_channels.isSome then
    .error (.attributeError "cannot reassign `featured_channels`: HtmlDict instance is immutable")
  else
    .ok { h with featured_channels := some new_html }

/-- Setter for `HtmlDict.videos`. -/
def HtmlDict.set_videos (h : HtmlDict) (new_html : String) :
    Except PyErr HtmlDict :=
  if h.immutable ∧ h.videos.isSome then
    .error (.attributeError "cannot reassign `videos`: HtmlDict instance is immutable")
  else
    .ok { h with videos := some new_html }

/-- Model of `HtmlDict.__init__`: assigns the four fields through their setters in
declaration order, starting from a record with no slots set. -/
def HtmlDict.init (about community featured_channels videos : String)
    (immutable : Bool) : Except PyErr HtmlDict := do
  let h ← HtmlDict.set_about ⟨immutable, none, none, none, none⟩ about
  let h ← h.set_community community
  let h ← h.set_featured_channels featured_channels
  let h ← h.set_videos videos
  .ok h

/-- Model of `PropertyDict.__eq__` restricted to two `HtmlDict` operands: same length
(always 4 = 4) and per-key value equality over `about`, `community`,
`featured_channels`, `videos` (the `immutable` flag is excluded from the key
set). -/
def HtmlDict.propEq (a b : HtmlDict) : Bool :=
  a.about == b.about && a.community == b.community &&
    a.featured_channels == b.featured_channels && a.videos == b.videos

/-- Model of `ChannelInfo`. -/
structure ChannelInfo where
  immutable : Bool
  channel_id : Option String
  channel_name : Option String
  html : Option HtmlDict
  last_updated : Option DT
deriving DecidableEq, Repr

/-- Setter for `ChannelInfo.channel_id`: immutability guard, string type
guard (by typing), then the 24-character / `"UC"`-prefix format guard. -/
def ChannelInfo.set_channel_id (c : ChannelInfo) (new_id : String) :
    Except PyErr ChannelInfo :=
  if c.immutable ∧ c.channel_id.isSome then
    .error (.attributeError "cannot reassign `channel_id`: ChannelInfo instance is immutable")
  else if new_id.length ≠ 24 ∨ ¬ strStartsWith new_id "UC" then
    .error (.valueError "`channel_id` must be a 24-character ExternalId string starting with 'UC'")
  else
    .ok { c with channel_id := some new_id }

/-- Setter for `ChannelInfo.channel_name`: immutability guard, then the
non-empty-string guard. -/
def ChannelInfo.set_channel_name (c : ChannelInfo) (new_name : String) :
    Except PyErr ChannelInfo :=
  if c.immutable ∧ c.channel_name.isSome then
    .error (.attributeError "cannot reassign `channel_name`: ChannelInfo instance is immutable")
  else if new_name = "" then
    .error (.valueError "`channel_name` must be a non-empty string")
  else
    .ok { c with channel_name := some new_name }

/-- Setter for `ChannelInfo.last_updated`: immutability guard, datetime type
guard (by typing), timezone-awareness guard, then the not-in-the-future guard
against `datetime.now(timezone.utc)`. -/
def ChannelInfo.set_last_updated (c : ChannelInfo) (new_time : DT)
    (now : Int) : Except PyErr ChannelInfo := do
  if c.immutable ∧ c.last_updated.isSome then
    .error (.attributeError "cannot reassign `last_updated`: ChannelInfo instance is immutable")
  else if new_time.tz.isNone then
    .error (.valueError "timestamp has no timezone information")
  else do
    let fut ← pyDtGt new_time ⟨now, some 0⟩
    if fut then
      .error (.valueError "timestamp in the future")
    else
      .ok { c with last_updated := some new_time }

/-- Setter for `ChannelInfo.html` on an `HtmlDict` argument: immutability
guard, then the accepted bundle's immutability flag is forcibly overwritten to
match the parent's.  (The branch converting a plain `dict` argument through
the `HtmlDict` constructor is not modelled; all call sites in the embedding
pass an `HtmlDict`.) -/
def ChannelInfo.set_html (c : ChannelInfo) (new_html : HtmlDict) :
    Except PyErr ChannelInfo :=
  if c.immutable ∧ c.html.isSome then
    .error (.attributeError "cannot reassign `html`: ChannelInfo instance is immutable")
  else
    .ok { c with html := some { new_html with immutable := c.immutable } }

/-- Model of `ChannelInfo.__init__`: assigns `channel_id`, `channel_name`,
`last_updated` through their setters, then builds the `HtmlDict` from the four
HTML arguments and assigns it through the `html` setter. -/
def ChannelInfo.init (channel_id channel_name : String) (last_updated : DT)
    (about_html community_html featured_channels_html videos_html : String)
    (immutable : Bool) (now : Int) : Except PyErr ChannelInfo := do
  let c ← ChannelInfo.set_channel_id ⟨immutable, none, none, none, none⟩
    channel_id
  let c ← c.set_channel_name channel_name
  let c ← c.set_last_updated last_updated now
  let h ← HtmlDict.init about_html community_html featured_channels_html
    videos_html immutable
  c.set_html h

/-- The JSON document written for a `ChannelInfo` record.  File-system I/O and
ISO-8601 text rendering are external collaborators (spec §1, §6): the
`last_updated` component carries the datetime whose `isoformat()` text the
document stores, with `datetime.fromisoformat` its exact inverse. -/
structure ChannelJson where
  channel_id : String
  channel_name : String
  last_updated : DT
  html_about : String
  html_community : String
  html_featured_channels : String
  html_videos : String
deriving DecidableEq, Repr

/-- Model of `ChannelInfo.to_json`: builds the JSON document from the record's
attributes (an unset attribute would raise `AttributeError`, modelled as
`none`; the optional file write is at the interface boundary). -/
def ChannelInfo.to_json (c : ChannelInfo) : Option ChannelJson :=
  match c.channel_id, c.channel_name, c.last_updated, c.html with
  | some cid, some cname, some lu, some h =>
    match h.about, h.community, h.featured_channels, h.videos with
    | some ab, some co, some fe, some vi =>
      some ⟨cid, cname, lu, ab, co, fe, vi⟩
    | _, _, _, _ => none
  | _, _, _, _ => none

/-- Model of `ChannelInfo.from_json`: reads the document's fields and rebuilds the
record through the constructor (path and extension checks are at the
interface boundary). -/
def ChannelInfo.from_json (j : ChannelJson) (immutable : Bool) (now : Int) :
    Except PyErr ChannelInfo :=
  ChannelInfo.init j.channel_id j.channel_name j.last_updated j.html_about
    j.html_community j.html_featured_channels j.html_videos immutable now

/-- Model of `PropertyDict.__eq__` restricted to two `ChannelInfo` operands: per-key
value equality over `channel_id`, `channel_name`, `html`, `last_updated`
(`immutable` excluded); the nested `html` values compare by `HtmlDict`
equality and datetimes by Python datetime equality. -/
def ChannelInfo.propEq (a b : ChannelInfo) : Bool :=
  a.channel_id == b.channel_id && a.channel_name == b.channel_name &&
    (match a.html, b.html with
     | some ha, some hb => ha.propEq hb
     | none, none => true
     | _, _ => false) &&
    (match a.last_updated, b.last_updated with
     | some da, some db => pyDtEq da db
     | none, none => true
     | _, _ => false)

/-- Model of `VideoInfo`.  `keywords` is stored as a Lean list; the source's
tuple-when-immutable vs. list-when-mutable container distinction is not
observable through the claims settled here.  `duration` is the
`datetime.timedelta` value as a total-seconds count. -/
structure VideoInfo where
  immutable : Bool
  channel_id : Option String
  channel_name : Option String
  video_id : Option String
  video_title : Option String
  publish_date : Option DT
  last_updated : Option DT
  duration : Option Int
  description : Option String
  keywords : Option (List String)
  thumbnail_url : Option String
deriving DecidableEq, Repr

/-- Setter for `VideoInfo.channel_id`: same guards as the `ChannelInfo`
setter. -/
def VideoInfo.set_channel_id (v : VideoInfo) (new_id : String) :
    Except PyErr VideoInfo :=
  if v.immutable ∧ v.channel_id.isSome then
    .error (.attributeError "cannot reassign `channel_id`: VideoInfo instance is immutable")
  else if new_id.length ≠ 24 ∨ ¬ strStartsWith new_id "UC" then
    .error (.valueError "`channel_id` must be a 24-character ExternalId string starting with 'UC'")
  else
    .ok { v with channel_id := some new_id }

/-- Setter for `VideoInfo.channel_name`. -/
def VideoInfo.set_channel_name (v : VideoInfo) (new_name : String) :
    Except PyErr VideoInfo :=
  if v.immutable ∧ v.channel_name.isSome then
    .error (.attributeError "cannot reassign `channel_name`: VideoInfo instance is immutable")
  else if new_name = "" then
    .error (.valueError "`channel_name` must be a non-empty string")
  else
    .ok { v with channel_name := some new_name }

/-- Setter for `VideoInfo.video_id`: immutability guard, string type guard
(by typing), then the exactly-11-characters guard. -/
def VideoInfo.set_video_id (v : VideoInfo) (new_id : String) :
    Except PyErr VideoInfo :=
  if v.immutable ∧ v.video_id.isSome then
    .error (.attributeError "cannot reassign `video_id`: VideoInfo instance is immutable")
  else if new_id.length ≠ 11 then
    .error (.valueError "`video_id` must be an 11-character video ID string")
  else
    .ok { v with video_id := some new_id }

/-- Setter for `VideoInfo.video_title`. -/
def VideoInfo.set_video_title (v : VideoInfo) (new_title : String) :
    Except PyErr VideoInfo :=
  if v.immutable ∧ v.video_title.isSome then
    .error (.attributeError "cannot reassign `video_title`: VideoInfo instance is immutable")
  else if new_title = "" then
    .error (.valueError "`video_title` must be a non-empty string")
  else
    .ok { v with video_title := some new_title }

/-- Setter for `VideoInfo.publish_date`: immutability guard, datetime type
guard (by typing), timezone-awareness guard, then — only when `last_updated`
already holds a value — the `new_date > last_updated` cross-check.  There is
no not-in-the-future guard on this setter. -/
def VideoInfo.set_publish_date (v : VideoInfo) (new_date : DT) :
    Except PyErr VideoInfo := do
  if v.immutable ∧ v.publish_date.isSome then
    .error (.attributeError "cannot reassign `publish_date`: VideoInfo instance is immutable")
  else if new_date.tz.isNone then
    .error (.valueError "datetime has no timezone")
  else
    match v.last_updated with
    | some lu => do
      let tooLate ← pyDtGt new_date lu
      if tooLate then
        .error (.valueError "datetime cannot be greater than `last_updated`")
      else
        .ok { v with publish_date := some new_date }
    | none => .ok { v with publish_date := some new_date }

/-- Setter for `VideoInfo.last_updated`: immutability guard, datetime type
guard (by typing), timezone-awareness guard, not-in-the-future guard against
`datetime.now(timezone.utc)`, then — only when `publish_date` already holds a
value — the `new_date < publish_date` cross-check. -/
def VideoInfo.set_last_updated (v : VideoInfo) (new_date : DT) (now : Int) :
    Except PyErr VideoInfo := do
  if v.immutable ∧ v.last_updated.isSome then
    .error (.attributeError "cannot reassign `last_updated`: VideoInfo instance is immutable")
  else if new_date.tz.isNone then
    .error (.valueError "datetime has no timezone")
  else do
    let fut ← pyDtGt new_date ⟨now, some 0⟩
    if fut then
      .error (.valueError "datetime cannot be in the future")
    else
      match v.publish_date with
      | some pd => do
        let tooEarly ← pyDtLt new_date pd
        if tooEarly then
          .error (.valueError "datetime cannot be less than `publish_date`")
        else
          .ok { v with last_updated := some new_date }
      | none => .ok { v with last_updated := some new_date }

/-- Setter for `VideoInfo.duration`: immutability guard, timedelta type guard
(by typing), then the non-negativity guard against `timedelta()`. -/
def VideoInfo.set_duration (v : VideoInfo) (new_duration : Int) :
    Except PyErr VideoInfo :=
  if v.immutable ∧ v.duration.isSome then
    .error (.attributeError "cannot reassign `duration`: VideoInfo instance is immutable")
  else if new_duration < 0 then
    .error (.valueError "duration cannot be negative")
  else
    .ok { v with duration := some new_duration }

/-- Setter for `VideoInfo.description`: immutability guard and string type
guard only (any string is accepted). -/
def VideoInfo.set_description (v : VideoInfo) (new_description : String) :
    Except PyErr VideoInfo :=
  if v.immutable ∧ v.description.isSome then
    .error (.attributeError "cannot reassign `description`: VideoInfo instance is immutable")
  else
    .ok { v with description := some new_description }

/-- Setter for `VideoInfo.keywords`: immutability guard, collection type
guard (by typing), then every element must be a non-empty string. -/
def VideoInfo.set_keywords (v : VideoInfo) (new_keywords : List String) :
    Except PyErr VideoInfo :=
  if v.immutable ∧ v.keywords.isSome then
    .error (.attributeError "cannot reassign `keywords`: VideoInfo instance is immutable")
  else if new_keywords.any (fun k => k = "") then
    .error (.valueError "received empty keyword")
  else
    .ok { v with keywords := some new_keywords }

/-- Setter for `VideoInfo.thumbnail_url`: immutability guard, string type
guard (by typing), then the external URL-syntax validator `validators.url`
(an interface-boundary collaborator, passed in as the boolean predicate
`urlOk`). -/
def VideoInfo.set_thumbnail_url (v : VideoInfo) (urlOk : String → Bool)
    (new_url : String) : Except PyErr VideoInfo :=
  if v.immutable ∧ v.thumbnail_url.isSome then
    .error (.attributeError "cannot reassign `thumbnail_url`: VideoInfo instance is immutable")
  else if ¬ urlOk new_url then
    .error (.valueError "not a valid url")
  else
    .ok { v with thumbnail_url := some new_url }

/-- Model of `VideoInfo.__init__`: assigns the ten fields through their setters in
source order, starting from a record with no slots set.  `publish_date` is
assigned before `last_updated`, so the cross-check runs in the
`last_updated` setter during construction. -/
def VideoInfo.init (urlOk : String → Bool) (channel_id channel_name : String)
    (video_id video_title : String) (publish_date last_updated : DT)
    (duration : Int) (description : String) (keywords : List String)
    (thumbnail_url : String) (immutable : Bool) (now : Int) :
    Except PyErr VideoInfo := do
  let v ← VideoInfo.set_channel_id
    ⟨immutable, none, none, none, none, none, none, none, none, none, none⟩
    channel_id
  let v ← v.set_channel_name channel_name
  let v ← v.set_video_id video_id
  let v ← v.set_video_title video_title
  let v ← v.set_publish_date publish_date
  let v ← v.set_last_updated last_updated now
  let v ← v.set_duration duration
  let v ← v.set_description description
  let v ← v.set_keywords keywords
  v.set_thumbnail_url urlOk thumbnail_url

/-! ## Model of the dtype utilities in `datatube/stats.py`

A dataframe column is a list of cells plus a storage dtype.  The eight
semantic typespecs of `AVAILABLE_DTYPES` become the `Typespec` enumeration;
the engine's native columnar types become `Dtype` (nullable integer / float /
boolean / text, fixed-precision datetime and duration, generic object,
complex).  The engine primitives `pandas.api.types.is_*_dtype`,
`Series.convert_dtypes` and `Series.astype` are modelled at the interface
boundary following their documented behaviour; floating-point cell values are
represented as rationals. -/

/-- Native columnar storage types (the values of `dtype_lookup` in
`coerce_dtypes`). -/
inductive Dtype
  | obj | i64 | f64 | c128 | strD | boolD | dt64 | td64
deriving DecidableEq, Repr

/-- A cell of a dataframe column: a missing value or a typed scalar. -/
inductive Cell
  | na
  | cInt (n : Int)
  | cFloat (q : ℚ)
  | cComplex (re im : ℚ)
  | cStr (s : String)
  | cBool (b : Bool)
  | cDt (t : Int)
  | cTd (t : Int)
deriving DecidableEq, Repr

/-- A dataframe column: storage dtype plus cells. -/
structure Column where
  dtype : Dtype
  cells : List Cell
deriving DecidableEq, Repr

/-- A dataframe: named columns in order (duplicate names possible, as in the
engine). -/
abbrev DataFrame := List (String × Column)

/-- The atomic semantic typespecs (`AVAILABLE_DTYPES`). -/
inductive Typespec
  | tObj | tInt | tFloat | tComplex | tStr | tBool | tDatetime | tTimedelta
deriving DecidableEq, Repr

/-- A `**kwargs` value for `check_dtypes`: a single typespec or a
tuple/list/set of them. -/
inductive TypespecArg
  | single (t : Typespec)
  | multi (ts : List Typespec)
deriving DecidableEq, Repr

/-- Model of `pandas.api.types.is_object_dtype`. -/
def is_object_dtype : Dtype → Bool
  | .obj => true
  | _ => false

/-- Model of `pandas.api.types.is_integer_dtype`. -/
def is_integer_dtype : Dtype → Bool
  | .i64 => true
  | _ => false

/-- Model of `pandas.api.types.is_float_dtype`. -/
def is_float_dtype : Dtype → Bool
  | .f64 => true
  | _ => false

/-- Model of `pandas.api.types.is_complex_dtype`. -/
def is_complex_dtype : Dtype → Bool
  | .c128 => true
  | _ => false

/-- Model of `pandas.api.types.is_string_dtype`: true for text columns and also for
generic object columns (which is why `check_dtypes` special-cases the
object-vs-string distinction). -/
def is_string_dtype : Dtype → Bool
  | .strD => true
  | .obj => true
  | _ => false

/-- Model of `pandas.api.types.is_bool_dtype`. -/
def is_bool_dtype : Dtype → Bool
  | .boolD => true
  | _ => false

/-- Model of `pandas.api.types.is_datetime64_any_dtype`. -/
def is_datetime64_any_dtype : Dtype → Bool
  | .dt64 => true
  | _ => false

/-- Model of `pandas.api.types.is_timedelta64_dtype`. -/
def is_timedelta64_dtype : Dtype → Bool
  | .td64 => true
  | _ => false

/-- The `dtype_lookup` table of `check_dtypes`, in its priority order. -/
def dtypeCheckOf : Typespec → Dtype → Bool
  | .tObj => is_object_dtype
  | .tInt => is_integer_dtype
  | .tFloat => is_float_dtype
  | .tComplex => is_complex_dtype
  | .tStr => is_string_dtype
  | .tBool => is_bool_dtype
  | .tDatetime => is_datetime64_any_dtype
  | .tTimedelta => is_timedelta64_dtype

/-- The `dtype_lookup` table of `coerce_dtypes`: canonical native dtype per
atomic typespec. -/
def dtypeLookup : Typespec → Dtype
  | .tObj => .obj
  | .tInt => .i64
  | .tFloat => .f64
  | .tComplex => .c128
  | .tStr => .strD
  | .tBool => .boolD
  | .tDatetime => .dt64
  | .tTimedelta => .td64

/-- Whether a cell is a missing value or an integer scalar. -/
def cellIntLike : Cell → Bool
  | .na => true
  | .cInt _ => true
  | _ => false

/-- Whether a cell is a missing value or a float scalar. -/
def cellFloatLike : Cell → Bool
  | .na => true
  | .cFloat _ => true
  | _ => false

/-- Whether a cell is a missing value, an integer, or an integral-valued
float. -/
def cellIntegral : Cell → Bool
  | .na => true
  | .cInt _ => true
  | .cFloat q => q.den == 1
  | _ => false

/-- Whether a cell is a missing value or a string scalar. -/
def cellStrLike : Cell → Bool
  | .na => true
  | .cStr _ => true
  | _ => false

/-- Whether a cell is a missing value or a boolean scalar. -/
def cellBoolLike : Cell → Bool
  | .na => true
  | .cBool _ => true
  | _ => false

/-- The integral value of an int-or-integral-float cell (missing values stay
missing). -/
def cellToInt : Cell → Cell
  | .cInt n => .cInt n
  | .cFloat q => .cInt q.num
  | _ => .na

/-- Model of `Series.convert_dtypes`: best-effort narrowing to the nullable dtypes.
An object column of homogeneous scalars narrows to the matching nullable
dtype (integral values narrow to integer); a float column whose values are
all integral narrows to integer; complex columns raise a `TypeError` which
`check_dtypes` catches, leaving the column unchanged; other dtypes already
are their own best form. -/
def convert_dtypes (c : Column) : Column :=
  match c.dtype with
  | .obj =>
    if c.cells.any (fun x => ¬ cellIntLike x) = false ∧
        c.cells.any (fun x => x ≠ .na) then
      ⟨.i64, c.cells⟩
    else if c.cells.any (fun x => ¬ cellIntegral x) = false ∧
        c.cells.any (fun x => x ≠ .na) then
      ⟨.i64, c.cells.map cellToInt⟩
    else if c.cells.any (fun x => ¬ cellFloatLike x) = false ∧
        c.cells.any (fun x => x ≠ .na) then
      ⟨.f64, c.cells⟩
    else if c.cells.any (fun x => ¬ cellStrLike x) = false ∧
        c.cells.any (fun x => x ≠ .na) then
      ⟨.strD, c.cells⟩
    else if c.cells.any (fun x => ¬ cellBoolLike x) = false ∧
        c.cells.any (fun x => x ≠ .na) then
      ⟨.boolD, c.cells⟩
    else
      c
  | .f64 =>
    if c.cells.any (fun x => ¬ cellIntegral x) = false then
      ⟨.i64, c.cells.map cellToInt⟩
    else
      c
  | _ => c

/-- Model of `data[col_name]`: first column with the given name, `KeyError` when
absent. -/
def getCol (df : DataFrame) (name : String) : Except PyErr Column :=
  match df.find? (fun p => p.1 == name) with
  | some p => .ok p.2
  | none => .error (.keyError name)

/-- Column assignment `result[col_name] = column`: replaces every column with
the given name. -/
def setCol (df : DataFrame) (name : String) (c : Column) : DataFrame :=
  df.map (fun p => if p.1 == name then (p.1, c) else p)

/-- The inner `check_column` helper of `check_dtypes`: narrow the column with
`convert_dtypes`, then test the typespec(s), reporting a `str` check as
failed when the narrowed column is still best described as `object`. -/
def check_column (df : DataFrame) (name : String) (arg : TypespecArg) :
    Except PyErr Bool := do
  let c ← getCol df name
  match arg with
  | .single t =>
    if t = .tStr ∧ is_object_dtype (convert_dtypes c).dtype then
      .ok false
    else
      .ok (dtypeCheckOf t (convert_dtypes c).dtype)
  | .multi ts =>
    .ok (ts.any (fun t =>
      if t = .tStr ∧ is_object_dtype (convert_dtypes c).dtype then
        false
      else
        dtypeCheckOf t (convert_dtypes c).dtype))

/-- Model of `all(...)` over the keyword arguments of `check_dtypes`, with the
generator's short-circuit on the first failing column. -/
def checkAll (df : DataFrame) : List (String × TypespecArg) →
    Except PyErr Bool
  | [] => .ok true
  | (name, arg) :: rest => do
    let b ← check_column df name arg
    if b then checkAll df rest else .ok false

/-- The keyword path of `check_dtypes(data, **kwargs)`. -/
def check_dtypes (df : DataFrame) (kwargs : List (String × TypespecArg)) :
    Except PyErr Bool :=
  checkAll df kwargs

/-- The keywordless path of `check_dtypes(data)`: per column, the first
matching typespec in the priority order `object, int, float, complex, str,
bool, datetime, timedelta` of the narrowed column. -/
def check_dtypes_infer (df : DataFrame) : List (String × Option Typespec) :=
  df.map (fun p =>
    let n := convert_dtypes p.2
    (p.1, [Typespec.tObj, .tInt, .tFloat, .tComplex, .tStr, .tBool,
           .tDatetime, .tTimedelta].find? (fun t => dtypeCheckOf t n.dtype)))

/-- Model of `Series.astype` cast of one cell to a native dtype: the identity on cells
already of that dtype's kind and on missing values; numeric widenings,
boolean/number conversions and text renderings as in the engine; casts the
engine rejects (or whose behaviour is version-dependent) raise. -/
def castCell (d : Dtype) (c : Cell) : Except PyErr Cell :=
  match d, c with
  | _, .na => .ok .na
  | .obj, c => .ok c
  | .i64, .cInt n => .ok (.cInt n)
  | .i64, .cFloat q => if q.den = 1 then .ok (.cInt q.num)
      else .error (.typeError "cannot safely cast non-equivalent float to Int64")
  | .i64, .cBool b => .ok (.cInt (if b then 1 else 0))
  | .i64, _ => .error (.typeError "cannot cast to Int64")
  | .f64, .cFloat q => .ok (.cFloat q)
  | .f64, .cInt n => .ok (.cFloat (n : ℚ))
  | .f64, .cBool b => .ok (.cFloat (if b then 1 else 0))
  | .f64, _ => .error (.typeError "cannot cast to Float64")
  | .c128, .cComplex re im => .ok (.cComplex re im)
  | .c128, .cInt n => .ok (.cComplex (n : ℚ) 0)
  | .c128, .cFloat q => .ok (.cComplex q 0)
  | .c128, .cBool b => .ok (.cComplex (if b then 1 else 0) 0)
  | .c128, _ => .error (.typeError "cannot cast to complex128")
  | .strD, .cStr s => .ok (.cStr s)
  | .strD, .cInt n => .ok (.cStr (toString n))
  | .strD, .cFloat q => .ok (.cStr (toString q))
  | .strD, .cComplex re im => .ok (.cStr (toString re ++ "+" ++ toString im ++ "j"))
  | .strD, .cBool b => .ok (.cStr (toString b))
  | .strD, .cDt t => .ok (.cStr (toString t))
  | .strD, .cTd t => .ok (.cStr (toString t))
  | .boolD, .cBool b => .ok (.cBool b)
  | .boolD, .cInt n => .ok (.cBool (n ≠ 0))
  | .boolD, _ => .error (.typeError "cannot cast to boolean")
  | .dt64, .cDt t => .ok (.cDt t)
  | .dt64, .cInt n => .ok (.cDt n)
  | .dt64, _ => .error (.typeError "cannot cast to datetime64[ns]")
  | .td64, .cTd t => .ok (.cTd t)
  | .td64, .cInt n => .ok (.cTd n)
  | .td64, _ => .error (.typeError "cannot cast to timedelta64[ns]")

/-- Model of `Series.astype`: cast every cell, the column taking the target dtype. -/
def astype (c : Column) (d : Dtype) : Except PyErr Column := do
  let cs ← c.cells.mapM (castCell d)
  .ok ⟨d, cs⟩

/-- The canonical native dtype of a `**kwargs` typespec for `coerce_dtypes`:
a tuple/list/set typespec is not a key of `dtype_lookup` (`KeyError`). -/
def lookupArg : TypespecArg → Option Dtype
  | .single t => some (dtypeLookup t)
  | .multi _ => none

/-- Error raised by `coerce_dtypes` when a typespec is not in
`dtype_lookup`. -/
def typespecNotRecognized : PyErr :=
  .keyError "typespec not recognized"

/-- The keyword loop of `coerce_dtypes`: each column is checked against the
ORIGINAL dataframe (`check_dtypes(data, ...)`) and, when the check fails,
recast in the accumulating result.  A `KeyError` from the column lookup or
the `dtype_lookup` access inside the `try` block is re-raised as the
typespec-not-recognized error; cast errors propagate. -/
def coerceLoop (data : DataFrame) : DataFrame →
    List (String × TypespecArg) → Except PyErr DataFrame
  | result, [] => .ok result
  | result, (name, arg) :: rest => do
    let b ← check_dtypes data [(name, arg)]
    if b then
      coerceLoop data result rest
    else
      match lookupArg arg with
      | none => .error typespecNotRecognized
      | some d =>
        match getCol result name with
        | .error (.keyError _) => .error typespecNotRecognized
        | .error e => .error e
        | .ok c => do
          let c' ← astype c d
          coerceLoop data (setCol result name c') rest

/-- Model of `coerce_dtypes(data, **kwargs)`: requires at least one keyword argument
(else `RuntimeError`), then runs the column loop on a copy of the data. -/
def coerce_dtypes (data : DataFrame) (kwargs : List (String × TypespecArg)) :
    Except PyErr DataFrame :=
  if kwargs.isEmpty then
    .error (.runtimeError "`coerce_dtypes` must be invoked with at least one keyword argument")
  else
    coerceLoop data data kwargs

/-! ## Model of the `Stats` store in `datatube/stats.py`

The store's dataframe is a list of rows paired with their index labels (the
engine keeps original labels through `dropna`, `drop_duplicates` and
`sort_values`, and `most_recent` mixes labels with positions, so labels are
part of the state).  The six-column schema and its canonical dtypes are
represented by the `Row` type itself: `video_id` and `timestamp` are required
(rows failing `dropna` never enter the store), the numeric columns are
nullable.  Ratings are the engine's nullable floats, modelled as rationals. -/

/-- A fully-formed row of the store (after the constructor's coercion,
reordering and `dropna`). -/
structure Row where
  videoId : String
  timestamp : DT
  views : Option Int
  rating : Option ℚ
  likes : Option Int
  dislikes : Option Int
deriving DecidableEq, Repr

/-- A row of a raw input dataset: `video_id` or `timestamp` may be missing
(such rows are dropped by `dropna`). -/
structure RawRow where
  videoId : Option String
  timestamp : Option DT
  views : Option Int
  rating : Option ℚ
  likes : Option Int
  dislikes : Option Int
deriving DecidableEq, Repr

/-- The `Stats` store state: `self._data` as rows with their index labels. -/
structure StatsState where
  rows : List (Nat × Row)
deriving DecidableEq, Repr

/-- Modelled from the spec: `is_video_id` lives in `datatube.check`, which is
not under `src/`; the spec describes it as the external 11-character
video-id-format check (spec §1, §6). -/
def is_video_id (s : String) : Bool :=
  s.length == 11

/-- Equality of two rows on the (`video_id`, `timestamp`) pair, as the engine
compares them in `drop_duplicates` and in `add_row`'s duplicate test. -/
def rowKeyEq (a b : Row) : Bool :=
  a.videoId == b.videoId && pyDtEq a.timestamp b.timestamp

theorem rowKeyEq_symm (a b : Row) : rowKeyEq a b = rowKeyEq b a := by
  unfold rowKeyEq
  rw [pyDtEq_symm, BEq.comm]

theorem rowKeyEq_trans {a b c : Row} (h1 : rowKeyEq a b = true)
    (h2 : rowKeyEq b c = true) : rowKeyEq a c = true := by
  unfold rowKeyEq at *
  simp only [Bool.and_eq_true, beq_iff_eq] at *
  exact ⟨h1.1.trans h2.1, pyDtEq_trans h1.2 h2.2⟩

/-- Model of `drop_duplicates(subset=["video_id", "timestamp"])`: keep the first row
for each key, preserving order and labels.  `seen` accumulates the keys of
rows already kept. -/
def dropDupAux (seen : List Row) : List (Nat × Row) → List (Nat × Row)
  | [] => []
  | p :: rest =>
    if seen.any (fun r => rowKeyEq r p.2) then
      dropDupAux seen rest
    else
      p :: dropDupAux (p.2 :: seen) rest

/-- The sort key used by `sort_values(["video_id", "timestamp"])`: the
engine orders the string column lexicographically by code points (the order
on the underlying character list) and a (single-kind) timestamp column by the
instant order `DT.abs`. -/
def rowLe (p q : Nat × Row) : Prop :=
  p.2.videoId.data < q.2.videoId.data ∨
    (p.2.videoId = q.2.videoId ∧ p.2.timestamp.abs ≤ q.2.timestamp.abs)

instance : DecidableRel rowLe := fun p q => by
  unfold rowLe
  exact instDecidableOr

instance : IsTotal (Nat × Row) rowLe where
  total p q := by
    unfold rowLe
    rcases lt_trichotomy p.2.videoId.data q.2.videoId.data with h | h | h
    · exact Or.inl (Or.inl h)
    · have he : p.2.videoId = q.2.videoId := by
        cases hp : p.2.videoId with
        | mk dp =>
          cases hq : q.2.videoId with
          | mk dq =>
            rw [hp, hq] at h
            exact congrArg String.mk (by simpa using h)
      rcases le_total p.2.timestamp.abs q.2.timestamp.abs with h2 | h2
      · exact Or.inl (Or.inr ⟨he, h2⟩)
      · exact Or.inr (Or.inr ⟨he.symm, h2⟩)
    · exact Or.inr (Or.inl h)

instance : IsTrans (Nat × Row) rowLe where
  trans p q r hpq hqr := by
    unfold rowLe at *
    rcases hpq with h1 | ⟨e1, l1⟩ <;> rcases hqr with h2 | ⟨e2, l2⟩
    · exact Or.inl (h1.trans h2)
    · exact Or.inl (e2 ▸ h1)
    · exact Or.inl (e1 ▸ h2)
    · exact Or.inr ⟨e1.trans e2, l1.trans l2⟩

/-- Model of `sort_values(["video_id", "timestamp"])` on the row list (labels ride
along with their rows). -/
def sortRows (l : List (Nat × Row)) : List (Nat × Row) :=
  l.insertionSort rowLe

/-- The `check_timestamp` helper of `Stats.__init__`: a timestamp with no
timezone raises `ValueError`; the in-the-future branch composes an error
message against `datetime.now(timezone.utc)` but never raises it, so the
function returns normally for every timezone-aware timestamp. -/
def check_timestamp (t : DT) (now : Int) : Except PyErr Unit :=
  if t.tz.isNone then
    .error (.valueError "timestamp has no timezone")
  else
    match pyDtGt t ⟨now, some 0⟩ with
    | .error e => .error e
    | .ok _ => .ok ()

/-- The `check_video_id` helper of `Stats.__init__`. -/
def check_video_id (v : String) : Except PyErr Unit :=
  if is_video_id v then .ok () else .error (.valueError "bad video id")

/-- Labelling of the raw dataset's rows by their original positions (the
engine's index), dropping the rows that `dropna(subset=["video_id",
"timestamp"])` removes — dropped rows leave gaps in the label sequence. -/
def labelRows (i : Nat) : List RawRow → List (Nat × Row)
  | [] => []
  | rr :: rest =>
    match rr.videoId, rr.timestamp with
    | some v, some t =>
      (i, ⟨v, t, rr.views, rr.rating, rr.likes, rr.dislikes⟩) ::
        labelRows (i + 1) rest
    | _, _ => labelRows (i + 1) rest

/-- The survivors of the constructor's row pipeline on a raw dataset: label
the rows by their original positions, coerce to the schema (represented by
the `Row` type), drop rows missing `video_id` or `timestamp`, then drop
duplicate (`video_id`, `timestamp`) pairs keeping the first. -/
def survivorsOf (raw : List RawRow) : List (Nat × Row) :=
  dropDupAux [] (labelRows 0 raw)

/-- Model of `Stats.__init__` on a dataset: the column-name and column-dtype
validation (a `ValueError` naming missing/extra columns, a `TypeError` per
offending column) is represented by the typed `RawRow` input; then the row
pipeline runs, every surviving `video_id` must pass `is_video_id` and every
surviving `timestamp` must carry a timezone, and requesting interpolation is
unimplemented. -/
def forEachCheck {α : Type} (f : α → Except PyErr Unit) :
    List α → Except PyErr Unit
  | [] => .ok ()
  | a :: rest => f a >>= fun _ => forEachCheck f rest

/-- Model of `Stats.__init__` on a dataset (continued): `Series.apply` of the two
check helpers over the surviving rows, then the interpolation branch. -/
def statsInit (raw : List RawRow) (interpolate : Bool) (now : Int) :
    Except PyErr StatsState :=
  forEachCheck (fun p => check_video_id p.2.videoId) (survivorsOf raw) >>=
    fun _ =>
  forEachCheck (fun p => check_timestamp p.2.timestamp now)
    (survivorsOf raw) >>= fun _ =>
  if interpolate then
    .error .notImplementedError
  else
    .ok ⟨survivorsOf raw⟩

/-- Model of `Stats.__init__` with no dataset: the empty store with the canonical
columns at their canonical dtypes. -/
def emptyStats : StatsState :=
  ⟨[]⟩

/-- Model of `self._data.loc[len(self._data)] = new_row`: label-based assignment —
when the label already exists the row at that label is overwritten, otherwise
the row is appended with that label. -/
def locSet (rows : List (Nat × Row)) (lbl : Nat) (r : Row) :
    List (Nat × Row) :=
  if rows.any (fun p => p.1 == lbl) then
    rows.map (fun p => if p.1 == lbl then (p.1, r) else p)
  else
    rows ++ [(lbl, r)]

/-- The `rating` bound check of `add_row`: when a rating is given it must
lie between 0 and 5. -/
def checkRating : Option ℚ → Except PyErr Unit
  | none => .ok ()
  | some q =>
    if ¬ (0 ≤ q ∧ q ≤ 5) then
      .error (.valueError "`rating` must be a numeric between 0 and 5")
    else
      .ok ()

/-- The `likes`/`dislikes` validation loop body of `add_row`. -/
def checkCount (name : String) : Option Int → Except PyErr Unit
  | none => .ok ()
  | some n =>
    if n < 0 then
      .error (.valueError (name ++ " must be an integer > 0"))
    else
      .ok ()

/-- The rating derivation of `add_row`: when `rating` is omitted and both
`likes` and `dislikes` are given, Python float division
`5 * likes / (likes + dislikes)` (a `ZeroDivisionError` when both counts are
zero); otherwise the given `rating` passes through. -/
def deriveRating (rating : Option ℚ) (likes dislikes : Option Int) :
    Except PyErr (Option ℚ) :=
  match rating, likes, dislikes with
  | none, some l, some d =>
    if (l : ℚ) + (d : ℚ) = 0 then
      .error PyErr.zeroDivisionError
    else
      .ok (some (5 * (l : ℚ) / ((l : ℚ) + (d : ℚ))))
  | r, _, _ => .ok r

/-- Model of `Stats.add_row`: validates `video_id` (type by typing, format via
`is_video_id`), `timestamp` (type by typing, then the future check against
the timezone-NAIVE `datetime.now()`), `views`, `rating`, `likes` and
`dislikes`; rejects an existing (`video_id`, `timestamp`) pair; derives the
rating; then assigns the row at label `len(self._data)`, restores each
column's prior dtype (the identity on the typed model) and re-sorts the
whole store by (`video_id`, `timestamp`). -/
def addRow (s : StatsState) (video_id : String) (timestamp : DT)
    (views : Int) (rating : Option ℚ) (likes dislikes : Option Int)
    (now : Int) : Except PyErr StatsState :=
  if ¬ is_video_id video_id then
    .error (.valueError "`video_id` must be an 11-character video id string")
  else
    pyDtGt timestamp ⟨now, none⟩ >>= fun fut =>
    if fut then
      .error (.valueError "`timestamp` must be a datetime.datetime object (timestamp in the future)")
    else if views < 0 then
      .error (.valueError "`views` must be an integer > 0")
    else
      checkRating rating >>= fun _ =>
      checkCount "`likes`" likes >>= fun _ =>
      checkCount "`dislikes`" dislikes >>= fun _ =>
      if s.rows.any (fun p =>
          p.2.videoId == video_id && pyDtEq p.2.timestamp timestamp) then
        .error (.valueError "duplicate row")
      else
        deriveRating rating likes dislikes >>= fun rating' =>
        let newRow : Row :=
          ⟨video_id, timestamp, some views, rating', likes, dislikes⟩
        .ok ⟨sortRows (locSet s.rows s.rows.length newRow)⟩

/-- The in-place effect of an `add_row` call on `self._data`: on success the
new state, on a raised exception the state exactly as it was (every `raise`
in the source precedes the mutation statements). -/
def addRowRun (s : StatsState) (video_id : String) (timestamp : DT)
    (views : Int) (rating : Option ℚ) (likes dislikes : Option Int)
    (now : Int) : Option PyErr × StatsState :=
  match addRow s video_id timestamp views rating likes dislikes now with
  | .ok s' => (none, s')
  | .error e => (some e, s)

/-- Keep-first deduplication of the video ids, then the ascending key order
`groupby("video_id")` produces. -/
def groupKeys (l : List String) : List String :=
  (l.foldl (fun acc v => if acc.contains v then acc else acc ++ [v])
    []).insertionSort (fun a b => ¬ b.data < a.data)

/-- Model of `groupby("video_id")["timestamp"].idxmax()` for one group: the index
LABEL of the first row attaining the maximum timestamp among the rows with
this `video_id`, in dataframe order. -/
def idxmaxGroup (s : StatsState) (v : String) : Option Nat :=
  match s.rows.filter (fun p => p.2.videoId == v) with
  | [] => none
  | g :: gs =>
    some ((gs.foldl (fun acc p =>
      if acc.2.timestamp.abs < p.2.timestamp.abs then p else acc) g).1)

/-- Python `dict` construction with update semantics: a repeated key keeps
its first insertion position but takes the last value. -/
def dictOf (l : List (String × Row)) : List (String × Row) :=
  l.foldl (fun acc kv =>
    if acc.any (fun p => p.1 == kv.1) then
      acc.map (fun p => if p.1 == kv.1 then kv else p)
    else
      acc ++ [kv]) []

/-- Model of `Stats.most_recent`: computes the per-group idxmax LABELS, then selects
rows POSITIONALLY with `.iloc[indices]` (an `IndexError` when a label is not
a valid position), and returns the mapping keyed by the selected rows' own
`video_id` via `set_index("video_id").T.to_dict()`. -/
def mostRecent (s : StatsState) : Except PyErr (List (String × Row)) := do
  let labels := (groupKeys (s.rows.map (fun p => p.2.videoId))).filterMap
    (idxmaxGroup s)
  let sel ← labels.mapM (fun l =>
    match s.rows.get? l with
    | some p => Except.ok p.2
    | none => Except.error (PyErr.indexError "positional indexer is out-of-bounds"))
  .ok (dictOf (sel.map (fun r => (r.videoId, r))))

/-! ## Store invariants and reachability -/

/-- The (`video_id`, `timestamp`) pair is distinct across all rows. -/
def uniqRows (s : StatsState) : Prop :=
  List.Pairwise (fun p q : Nat × Row => rowKeyEq p.2 q.2 = false) s.rows

/-- Index labels are distinct across all rows (every state the engine
produces satisfies this). -/
def labelsNodup (s : StatsState) : Prop :=
  List.Pairwise (fun p q : Nat × Row => p.1 ≠ q.1) s.rows

/-- The rows are sorted ascending by (`video_id`, `timestamp`). -/
def sortedRows (s : StatsState) : Prop :=
  List.Sorted rowLe s.rows

/-- The store states reachable through the public operations: empty
construction, construction from a dataset (which the CSV-loading path feeds
into after external parsing), and `add_row`.  The store is never mutated any
other way. -/
inductive Reachable : StatsState → Prop
  | empty : Reachable emptyStats
  | ofData (raw : List RawRow) (interp : Bool) (now : Int) (s : StatsState) :
      statsInit raw interp now = .ok s → Reachable s
  | step (s : StatsState) (v : String) (ts : DT) (vw : Int) (r : Option ℚ)
      (l d : Option Int) (now : Int) (s' : StatsState) : Reachable s →
      addRow s v ts vw r l d now = .ok s' → Reachable s'

theorem dropDupAux_sublist (seen : List Row) (l : List (Nat × Row)) :
    (dropDupAux seen l).Sublist l := by
  induction l generalizing seen with
  | nil => simp [dropDupAux]
  | cons p rest ih =>
    unfold dropDupAux
    split
    · exact (ih seen).trans (List.sublist_cons_self p rest)
    · exact (ih (p.2 :: seen)).cons₂ p

theorem dropDupAux_not_seen {seen : List Row} {l : List (Nat × Row)}
    {q : Nat × Row} (hq : q ∈ dropDupAux seen l) :
    ∀ r ∈ seen, rowKeyEq r q.2 = false := by
  induction l generalizing seen with
  | nil => simp [dropDupAux] at hq
  | cons p rest ih =>
    rw [dropDupAux] at hq
    by_cases hc : seen.any (fun r => rowKeyEq r p.2) = true
    · rw [if_pos hc] at hq
      exact ih hq
    · rw [if_neg hc] at hq
      rw [List.mem_cons] at hq
      rcases hq with hq | hq
      · subst hq
        intro r hr
        simp only [List.any_eq_true, not_exists, not_and,
          Bool.not_eq_true] at hc
        simpa using hc r hr
      · intro r hr
        exact ih hq r (List.mem_cons_of_mem _ hr)

theorem pairwise_dropDupAux (seen : List Row) (l : List (Nat × Row)) :
    List.Pairwise (fun p q : Nat × Row => rowKeyEq p.2 q.2 = false)
      (dropDupAux seen l) := by
  induction l generalizing seen with
  | nil => simp [dropDupAux]
  | cons p rest ih =>
    unfold dropDupAux
    split
    · exact ih seen
    · refine List.Pairwise.cons ?_ (ih (p.2 :: seen))
      intro q hq
      exact dropDupAux_not_seen hq p.2 (List.mem_cons_self _ _)

theorem labelRows_ge (raw : List RawRow) (j : Nat) :
    ∀ p ∈ labelRows j raw, j ≤ p.1 := by
  induction raw generalizing j with
  | nil => simp [labelRows]
  | cons rr rest ih =>
    intro p hp
    rw [labelRows] at hp
    rcases hv : rr.videoId with _ | v <;> rcases ht : rr.timestamp with _ | t <;>
      simp only [hv, ht] at hp
    · exact le_trans (Nat.le_succ _) (ih (j + 1) p hp)
    · exact le_trans (Nat.le_succ _) (ih (j + 1) p hp)
    · exact le_trans (Nat.le_succ _) (ih (j + 1) p hp)
    · rw [List.mem_cons] at hp
      rcases hp with hp | hp
      · subst hp; exact le_refl _
      · exact le_trans (Nat.le_succ _) (ih (j + 1) p hp)

theorem labelRows_lt (i : Nat) (raw : List RawRow) :
    List.Pairwise (fun p q : Nat × Row => p.1 < q.1) (labelRows i raw) := by
  induction raw generalizing i with
  | nil => simp [labelRows]
  | cons rr rest ih =>
    unfold labelRows
    split
    · refine List.Pairwise.cons ?_ (ih (i + 1))
      intro q hq
      exact Nat.lt_of_lt_of_le (Nat.lt_succ_self i) (labelRows_ge rest (i + 1) q hq)
    · exact ih (i + 1)

theorem survivorsOf_uniq (raw : List RawRow) :
    List.Pairwise (fun p q : Nat × Row => rowKeyEq p.2 q.2 = false)
      (survivorsOf raw) :=
  pairwise_dropDupAux [] (labelRows 0 raw)

theorem survivorsOf_labels (raw : List RawRow) :
    List.Pairwise (fun p q : Nat × Row => p.1 ≠ q.1) (survivorsOf raw) := by
  have h := (labelRows_lt 0 raw).sublist (dropDupAux_sublist [] (labelRows 0 raw))
  exact h.imp (fun hlt => Nat.ne_of_lt hlt)

theorem map_replace_id {rows : List (Nat × Row)} {lbl : Nat} {r : Row}
    (h : ∀ p ∈ rows, p.1 ≠ lbl) :
    rows.map (fun p => if p.1 == lbl then (p.1, r) else p) = rows := by
  induction rows with
  | nil => rfl
  | cons p rest ih =>
    simp only [List.map_cons]
    rw [if_neg, ih]
    · intro q hq
      exact h q (List.mem_cons_of_mem _ hq)
    · simp only [beq_iff_eq]
      exact h p (List.mem_cons_self _ _)

theorem pairwise_map_replace {R : Nat × Row → Nat × Row → Prop}
    {rows : List (Nat × Row)} {lbl : Nat} {r : Row}
    (hpw : List.Pairwise R rows)
    (hlab : List.Pairwise (fun p q : Nat × Row => p.1 ≠ q.1) rows)
    (hnew : ∀ p ∈ rows, R p (lbl, r) ∧ R (lbl, r) p) :
    List.Pairwise R
      (rows.map (fun p => if p.1 == lbl then (p.1, r) else p)) := by
  induction rows with
  | nil => simp
  | cons p rest ih =>
    simp only [List.map_cons]
    by_cases hc : p.1 = lbl
    · rw [if_pos (by simpa using hc)]
      have hrest : rest.map (fun p => if p.1 == lbl then (p.1, r) else p)
          = rest := by
        apply map_replace_id
        intro q hq
        exact fun he => (List.pairwise_cons.mp hlab).1 q hq (hc.trans he.symm)
      rw [hrest]
      refine List.Pairwise.cons ?_ hpw.of_cons
      intro q hq
      have := (hnew q (List.mem_cons_of_mem _ hq)).2
      simpa [hc] using this
    · rw [if_neg (by simpa using hc)]
      refine List.Pairwise.cons ?_ ?_
      · intro q' hq'
        rw [List.mem_map] at hq'
        obtain ⟨q, hq, hfq⟩ := hq'
        by_cases hql : q.1 = lbl
        · rw [if_pos (by simpa using hql)] at hfq
          subst hfq
          have := (hnew p (List.mem_cons_self _ _)).1
          simpa [hql] using this
        · rw [if_neg (by simpa using hql)] at hfq
          subst hfq
          exact (List.pairwise_cons.mp hpw).1 q hq
      · exact ih hpw.of_cons hlab.of_cons
          (fun q hq => hnew q (List.mem_cons_of_mem _ hq))

theorem locSet_pairwise {R : Nat × Row → Nat × Row → Prop}
    {rows : List (Nat × Row)} {lbl : Nat} {r : Row}
    (hpw : List.Pairwise R rows)
    (hlab : List.Pairwise (fun p q : Nat × Row => p.1 ≠ q.1) rows)
    (hnew : ∀ p ∈ rows, R p (lbl, r) ∧ R (lbl, r) p) :
    List.Pairwise R (locSet rows lbl r) := by
  unfold locSet
  split
  · exact pairwise_map_replace hpw hlab hnew
  · rw [List.pairwise_append]
    refine ⟨hpw, List.pairwise_singleton _ _, ?_⟩
    intro a ha b hb
    rw [List.mem_singleton] at hb
    subst hb
    exact (hnew a ha).1

theorem locSet_labels {rows : List (Nat × Row)} {lbl : Nat} {r : Row}
    (hlab : List.Pairwise (fun p q : Nat × Row => p.1 ≠ q.1) rows) :
    List.Pairwise (fun p q : Nat × Row => p.1 ≠ q.1) (locSet rows lbl r) := by
  unfold locSet
  split
  · rename_i hany
    have : ∀ p : Nat × Row,
        ((if p.1 == lbl then (p.1, r) else p) : Nat × Row).1 = p.1 := by
      intro p
      split <;> rfl
    rw [List.pairwise_map]
    exact hlab.imp_of_mem (fun hp hq hne => by
      rw [this, this]; exact hne)
  · rename_i hany
    rw [List.pairwise_append]
    refine ⟨hlab, List.pairwise_singleton _ _, ?_⟩
    intro a ha b hb
    rw [List.mem_singleton] at hb
    subst hb
    simp only [List.any_eq_true, beq_iff_eq] at hany
    push_neg at hany
    exact hany a ha

theorem statsInit_ok_elim {raw : List RawRow} {interp : Bool} {now : Int}
    {s : StatsState} (h : statsInit raw interp now = .ok s) :
    s.rows = survivorsOf raw ∧ interp = false := by
  unfold statsInit at h
  rw [except_bind_ok] at h
  obtain ⟨u1, h1, h⟩ := h
  rw [except_bind_ok] at h
  obtain ⟨u2, h2, h⟩ := h
  cases interp with
  | true => simp at h
  | false =>
    simp only [Bool.false_eq_true, if_false, Except.ok.injEq] at h
    subst h
    exact ⟨rfl, rfl⟩

theorem addRow_ok_elim {s : StatsState} {v : String} {ts : DT} {vw : Int}
    {r : Option ℚ} {l d : Option Int} {now : Int} {s' : StatsState}
    (h : addRow s v ts vw r l d now = .ok s') :
    s.rows.any (fun p => p.2.videoId == v && pyDtEq p.2.timestamp ts)
        = false ∧
    ∃ rat, s'.rows =
      sortRows (locSet s.rows s.rows.length ⟨v, ts, some vw, rat, l, d⟩) := by
  unfold addRow at h
  by_cases h1 : is_video_id v = true
  swap
  · rw [if_pos (by simpa using h1)] at h
    simp at h
  rw [if_neg (by simp [h1])] at h
  rw [except_bind_ok] at h
  obtain ⟨fut, hfut, h⟩ := h
  cases fut with
  | true => simp at h
  | false =>
    rw [if_neg (by simp)] at h
    by_cases h2 : vw < 0
    · rw [if_pos h2] at h
      simp at h
    rw [if_neg h2] at h
    rw [except_bind_ok] at h
    obtain ⟨u1, hu1, h⟩ := h
    rw [except_bind_ok] at h
    obtain ⟨u2, hu2, h⟩ := h
    rw [except_bind_ok] at h
    obtain ⟨u3, hu3, h⟩ := h
    by_cases hdup : s.rows.any
        (fun p => p.2.videoId == v && pyDtEq p.2.timestamp ts) = true
    · rw [if_pos (by simpa using hdup)] at h
      simp at h
    rw [if_neg (by simpa using hdup)] at h
    rw [except_bind_ok] at h
    obtain ⟨rat, hrat, h⟩ := h
    simp only [Except.ok.injEq] at h
    subst h
    exact ⟨by simpa using hdup, rat, rfl⟩

theorem sortRows_perm (l : List (Nat × Row)) : (sortRows l).Perm l :=
  List.perm_insertionSort rowLe l

theorem rowKeyEq_symmetric :
    Symmetric (fun p q : Nat × Row => rowKeyEq p.2 q.2 = false) := by
  intro p q h
  rw [rowKeyEq_symm]
  exact h

theorem label_ne_symmetric :
    Symmetric (fun p q : Nat × Row => p.1 ≠ q.1) := by
  intro p q h
  exact h.symm

theorem addRow_preserves_inv {s : StatsState} {v : String} {ts : DT}
    {vw : Int} {r : Option ℚ} {l d : Option Int} {now : Int}
    {s' : StatsState} (h : addRow s v ts vw r l d now = .ok s')
    (hu : uniqRows s) (hl : labelsNodup s) :
    uniqRows s' ∧ labelsNodup s' := by
  obtain ⟨hdup, rat, hrows⟩ := addRow_ok_elim h
  have hnew : ∀ p ∈ s.rows,
      rowKeyEq p.2 (⟨v, ts, some vw, rat, l, d⟩ : Row) = false ∧
      rowKeyEq (⟨v, ts, some vw, rat, l, d⟩ : Row) p.2 = false := by
    intro p hp
    rw [List.any_eq_false] at hdup
    have hmem := hdup p hp
    simp only [Bool.not_eq_true] at hmem
    have hk : rowKeyEq p.2 (⟨v, ts, some vw, rat, l, d⟩ : Row) = false := hmem
    exact ⟨hk, by rw [rowKeyEq_symm]; exact hk⟩
  constructor
  · rw [uniqRows, hrows,
      List.Perm.pairwise_iff (fun hxy => rowKeyEq_symmetric hxy) (sortRows_perm _)]
    exact locSet_pairwise hu hl
      (fun p hp => ⟨(hnew p hp).1, (hnew p hp).2⟩)
  · rw [labelsNodup, hrows,
      List.Perm.pairwise_iff (fun hxy => label_ne_symmetric hxy) (sortRows_perm _)]
    exact locSet_labels hl

theorem reachable_inv {s : StatsState} (h : Reachable s) :
    uniqRows s ∧ labelsNodup s := by
  induction h with
  | empty =>
    exact ⟨List.Pairwise.nil, List.Pairwise.nil⟩
  | ofData raw interp now s hok =>
    obtain ⟨hrows, _⟩ := statsInit_ok_elim hok
    constructor
    · rw [uniqRows, hrows]
      exact survivorsOf_uniq raw
    · rw [labelsNodup, hrows]
      exact survivorsOf_labels raw
  | step s v ts vw r l d now s' hre hok ih =>
    exact addRow_preserves_inv hok ih.1 ih.2

theorem addRow_sorted {s : StatsState} {v : String} {ts : DT} {vw : Int}
    {r : Option ℚ} {l d : Option Int} {now : Int} {s' : StatsState}
    (h : addRow s v ts vw r l d now = .ok s') : sortedRows s' := by
  obtain ⟨_, rat, hrows⟩ := addRow_ok_elim h
  rw [sortedRows, hrows]
  exact List.sorted_insertionSort rowLe _

/-! ## Helper lemmas for the record setters and constructors -/

theorem pyDtLt_ok_false_le {a b : DT} (ha : a.tz.isSome = true)
    (hb : b.tz.isSome = true) (h : pyDtLt a b = .ok false) :
    b.abs ≤ a.abs := by
  unfold pyDtLt at h
  rcases hta : a.tz with _ | oa
  · rw [hta] at ha; simp at ha
  rcases htb : b.tz with _ | ob
  · rw [htb] at hb; simp at hb
  rw [hta, htb] at h
  simp only [Except.ok.injEq, decide_eq_false_iff_not, not_lt] at h
  exact h

theorem pyDtGt_now_ok_false_iff {t : DT} {now : Int}
    (ht : t.tz.isSome = true) :
    pyDtGt t ⟨now, some 0⟩ = .ok false ↔ t.abs ≤ now := by
  rcases htz : t.tz with _ | o
  · rw [htz] at ht; simp at ht
  unfold pyDtGt pyDtLt
  simp only [htz, DT.abs, Option.getD_some]
  constructor
  · intro h
    simp only [Except.ok.injEq, decide_eq_false_iff_not, not_lt] at h
    simpa [htz] using h
  · intro h
    simp only [Except.ok.injEq, decide_eq_false_iff_not, not_lt]
    simpa [htz] using h

theorem set_about_ok {h : HtmlDict} {x : String} {h' : HtmlDict}
    (he : h.set_about x = .ok h') : h' = { h with about := some x } := by
  unfold HtmlDict.set_about at he
  split at he
  · cases he
  · simp only [Except.ok.injEq] at he
    exact he.symm

theorem set_community_ok {h : HtmlDict} {x : String} {h' : HtmlDict}
    (he : h.set_community x = .ok h') :
    h' = { h with community := some x } := by
  unfold HtmlDict.set_community at he
  split at he
  · cases he
  · simp only [Except.ok.injEq] at he
    exact he.symm

theorem set_featured_channels_ok {h : HtmlDict} {x : String} {h' : HtmlDict}
    (he : h.set_featured_channels x = .ok h') :
    h' = { h with featured_channels := some x } := by
  unfold HtmlDict.set_featured_channels at he
  split at he
  · cases he
  · simp only [Except.ok.injEq] at he
    exact he.symm

theorem set_videos_ok {h : HtmlDict} {x : String} {h' : HtmlDict}
    (he : h.set_videos x = .ok h') : h' = { h with videos := some x } := by
  unfold HtmlDict.set_videos at he
  split at he
  · cases he
  · simp only [Except.ok.injEq] at he
    exact he.symm

theorem html_init_ok (about community featured_channels videos : String)
    (immutable : Bool) :
    HtmlDict.init about community featured_channels videos immutable =
      .ok ⟨immutable, some about, some community, some featured_channels,
           some videos⟩ := by
  unfold HtmlDict.init
  rw [except_bind_ok]
  refine ⟨⟨immutable, some about, none, none, none⟩, ?_, ?_⟩
  · unfold HtmlDict.set_about
    rw [if_neg (by simp)]
  rw [except_bind_ok]
  refine ⟨⟨immutable, some about, some community, none, none⟩, ?_, ?_⟩
  · unfold HtmlDict.set_community
    rw [if_neg (by simp)]
  rw [except_bind_ok]
  refine ⟨⟨immutable, some about, some community, some featured_channels,
    none⟩, ?_, ?_⟩
  · unfold HtmlDict.set_featured_channels
    rw [if_neg (by simp)]
  rw [except_bind_ok]
  refine ⟨⟨immutable, some about, some community, some featured_channels,
    some videos⟩, ?_, rfl⟩
  unfold HtmlDict.set_videos
  rw [if_neg (by simp)]

theorem chan_set_channel_id_ok {c : ChannelInfo} {x : String}
    {c' : ChannelInfo} (he : c.set_channel_id x = .ok c') :
    c' = { c with channel_id := some x } ∧ x.length = 24 ∧
      strStartsWith x "UC" = true := by
  unfold ChannelInfo.set_channel_id at he
  split at he
  · cases he
  · split at he
    · cases he
    · rename_i hfmt
      push_neg at hfmt
      simp only [Except.ok.injEq] at he
      exact ⟨he.symm, hfmt.1, by simpa using hfmt.2⟩

theorem chan_set_channel_name_ok {c : ChannelInfo} {x : String}
    {c' : ChannelInfo} (he : c.set_channel_name x = .ok c') :
    c' = { c with channel_name := some x } ∧ x ≠ "" := by
  unfold ChannelInfo.set_channel_name at he
  split at he
  · cases he
  · split at he
    · cases he
    · rename_i hne
      simp only [Except.ok.injEq] at he
      exact ⟨he.symm, hne⟩

theorem chan_set_last_updated_ok {c : ChannelInfo} {x : DT} {now : Int}
    {c' : ChannelInfo} (he : c.set_last_updated x now = .ok c') :
    c' = { c with last_updated := some x } ∧ x.tz.isSome = true ∧
      pyDtGt x ⟨now, some 0⟩ = .ok false := by
  unfold ChannelInfo.set_last_updated at he
  split at he
  · cases he
  · split at he
    · cases he
    · rename_i htz
      rw [except_bind_ok] at he
      obtain ⟨fut, hfut, he⟩ := he
      cases fut with
      | true => simp at he
      | false =>
        rw [if_neg (by simp)] at he
        simp only [Except.ok.injEq] at he
        refine ⟨he.symm, Option.isSome_iff_ne_none.mpr ?_, hfut⟩
        simpa [Option.isNone_iff_eq_none] using htz

theorem chan_set_html_ok {c : ChannelInfo} {x : HtmlDict} {c' : ChannelInfo}
    (he : c.set_html x = .ok c') :
    c' = { c with html := some { x with immutable := c.immutable } } := by
  unfold ChannelInfo.set_html at he
  split at he
  · cases he
  · simp only [Except.ok.injEq] at he
    exact he.symm

theorem channel_init_ok_elim {cid cname : String} {lu : DT}
    {ab co fe vi : String} {imm : Bool} {now : Int} {c : ChannelInfo}
    (h : ChannelInfo.init cid cname lu ab co fe vi imm now = .ok c) :
    c = ⟨imm, some cid, some cname,
         some ⟨imm, some ab, some co, some fe, some vi⟩, some lu⟩ ∧
    cid.length = 24 ∧ strStartsWith cid "UC" = true ∧ cname ≠ "" ∧
    lu.tz.isSome = true ∧ pyDtGt lu ⟨now, some 0⟩ = .ok false := by
  unfold ChannelInfo.init at h
  rw [except_bind_ok] at h
  obtain ⟨c1, h1, h⟩ := h
  rw [except_bind_ok] at h
  obtain ⟨c2, h2, h⟩ := h
  rw [except_bind_ok] at h
  obtain ⟨c3, h3, h⟩ := h
  rw [except_bind_ok] at h
  obtain ⟨hd, hh, h⟩ := h
  obtain ⟨he1, hlen, hpre⟩ := chan_set_channel_id_ok h1
  obtain ⟨he2, hne⟩ := chan_set_channel_name_ok h2
  obtain ⟨he3, htz, hfut⟩ := chan_set_last_updated_ok h3
  rw [html_init_ok] at hh
  simp only [Except.ok.injEq] at hh
  have he4 := chan_set_html_ok h
  subst he1
  subst he2
  subst he3
  subst hh
  subst he4
  exact ⟨rfl, hlen, hpre, hne, htz, hfut⟩

theorem channel_init_ok_intro (cid cname : String) (lu : DT)
    (ab co fe vi : String) (imm : Bool) (now : Int)
    (hlen : cid.length = 24) (hpre : strStartsWith cid "UC" = true)
    (hne : cname ≠ "") (htz : lu.tz.isSome = true)
    (hfut : pyDtGt lu ⟨now, some 0⟩ = .ok false) :
    ChannelInfo.init cid cname lu ab co fe vi imm now =
      .ok ⟨imm, some cid, some cname,
           some ⟨imm, some ab, some co, some fe, some vi⟩, some lu⟩ := by
  have htzne : ¬ lu.tz.isNone = true := by
    rcases h : lu.tz with _ | o
    · rw [h] at htz; simp at htz
    · simp
  unfold ChannelInfo.init
  rw [except_bind_ok]
  refine ⟨⟨imm, some cid, none, none, none⟩, ?_, ?_⟩
  · unfold ChannelInfo.set_channel_id
    rw [if_neg (by simp), if_neg (by simp [hlen, hpre])]
  rw [except_bind_ok]
  refine ⟨⟨imm, some cid, some cname, none, none⟩, ?_, ?_⟩
  · unfold ChannelInfo.set_channel_name
    rw [if_neg (by simp), if_neg hne]
  rw [except_bind_ok]
  refine ⟨⟨imm, some cid, some cname, none, some lu⟩, ?_, ?_⟩
  · unfold ChannelInfo.set_last_updated
    rw [if_neg (by simp), if_neg htzne]
    rw [except_bind_ok]
    exact ⟨false, hfut, by simp⟩
  rw [except_bind_ok]
  refine ⟨⟨imm, some ab, some co, some fe, some vi⟩, html_init_ok _ _ _ _ _,
    ?_⟩
  unfold ChannelInfo.set_html
  rw [if_neg (by simp)]

theorem not_isNone_isSome {α : Type} {o : Option α} (h : ¬ o.isNone = true) :
    o.isSome = true := by
  cases o <;> simp_all

theorem vid_set_channel_id_ok {v : VideoInfo} {x : String} {v' : VideoInfo}
    (he : v.set_channel_id x = .ok v') :
    v' = { v with channel_id := some x } := by
  unfold VideoInfo.set_channel_id at he
  split at he
  · cases he
  · split at he
    · cases he
    · simp only [Except.ok.injEq] at he
      exact he.symm

theorem vid_set_channel_name_ok {v : VideoInfo} {x : String} {v' : VideoInfo}
    (he : v.set_channel_name x = .ok v') :
    v' = { v with channel_name := some x } := by
  unfold VideoInfo.set_channel_name at he
  split at he
  · cases he
  · split at he
    · cases he
    · simp only [Except.ok.injEq] at he
      exact he.symm

theorem vid_set_video_id_ok {v : VideoInfo} {x : String} {v' : VideoInfo}
    (he : v.set_video_id x = .ok v') :
    v' = { v with video_id := some x } ∧ x.length = 11 := by
  unfold VideoInfo.set_video_id at he
  split at he
  · cases he
  · split at he
    · cases he
    · rename_i hlen
      push_neg at hlen
      simp only [Except.ok.injEq] at he
      exact ⟨he.symm, hlen⟩

theorem vid_set_video_title_ok {v : VideoInfo} {x : String} {v' : VideoInfo}
    (he : v.set_video_title x = .ok v') :
    v' = { v with video_title := some x } := by
  unfold VideoInfo.set_video_title at he
  split at he
  · cases he
  · split at he
    · cases he
    · simp only [Except.ok.injEq] at he
      exact he.symm

theorem vid_set_publish_date_ok {v : VideoInfo} {x : DT} {v' : VideoInfo}
    (he : v.set_publish_date x = .ok v') :
    v' = { v with publish_date := some x } ∧ x.tz.isSome = true ∧
      (∀ lu, v.last_updated = some lu → pyDtGt x lu = .ok false) := by
  unfold VideoInfo.set_publish_date at he
  split at he
  · cases he
  · split at he
    · cases he
    · rename_i htz
      rcases hlu : v.last_updated with _ | lu
      · rw [hlu] at he
        simp only [Except.ok.injEq] at he
        refine ⟨he.symm, not_isNone_isSome htz, ?_⟩
        intro lu h
        cases h
      · rw [hlu] at he
        rw [except_bind_ok] at he
        obtain ⟨tooLate, ht, he⟩ := he
        cases tooLate with
        | true => simp at he
        | false =>
          rw [if_neg (by simp)] at he
          simp only [Except.ok.injEq] at he
          refine ⟨he.symm, not_isNone_isSome htz, ?_⟩
          intro lu' h
          simp only [Option.some.injEq] at h
          subst h
          exact ht

theorem vid_set_last_updated_ok {v : VideoInfo} {x : DT} {now : Int}
    {v' : VideoInfo} (he : v.set_last_updated x now = .ok v') :
    v' = { v with last_updated := some x } ∧ x.tz.isSome = true ∧
      pyDtGt x ⟨now, some 0⟩ = .ok false ∧
      (∀ pd, v.publish_date = some pd → pyDtLt x pd = .ok false) := by
  unfold VideoInfo.set_last_updated at he
  split at he
  · cases he
  · split at he
    · cases he
    · rename_i htz
      rw [except_bind_ok] at he
      obtain ⟨fut, hfut, he⟩ := he
      cases fut with
      | true => simp at he
      | false =>
        rw [if_neg (by simp)] at he
        rcases hpd : v.publish_date with _ | pd
        · rw [hpd] at he
          simp only [Except.ok.injEq] at he
          refine ⟨he.symm, not_isNone_isSome htz, hfut, ?_⟩
          intro pd h
          cases h
        · rw [hpd] at he
          rw [except_bind_ok] at he
          obtain ⟨tooEarly, hte, he⟩ := he
          cases tooEarly with
          | true => simp at he
          | false =>
            rw [if_neg (by simp)] at he
            simp only [Except.ok.injEq] at he
            refine ⟨he.symm, not_isNone_isSome htz, hfut, ?_⟩
            intro pd' h
            simp only [Option.some.injEq] at h
            subst h
            exact hte

theorem vid_set_duration_ok {v : VideoInfo} {x : Int} {v' : VideoInfo}
    (he : v.set_duration x = .ok v') : v' = { v with duration := some x } := by
  unfold VideoInfo.set_duration at he
  split at he
  · cases he
  · split at he
    · cases he
    · simp only [Except.ok.injEq] at he
      exact he.symm

theorem vid_set_description_ok {v : VideoInfo} {x : String} {v' : VideoInfo}
    (he : v.set_description x = .ok v') :
    v' = { v with description := some x } := by
  unfold VideoInfo.set_description at he
  split at he
  · cases he
  · simp only [Except.ok.injEq] at he
    exact he.symm

theorem vid_set_keywords_ok {v : VideoInfo} {x : List String}
    {v' : VideoInfo} (he : v.set_keywords x = .ok v') :
    v' = { v with keywords := some x } := by
  unfold VideoInfo.set_keywords at he
  split at he
  · cases he
  · split at he
    · cases he
    · simp only [Except.ok.injEq] at he
      exact he.symm

theorem vid_set_thumbnail_url_ok {v : VideoInfo} {f : String → Bool}
    {x : String} {v' : VideoInfo} (he : v.set_thumbnail_url f x = .ok v') :
    v' = { v with thumbnail_url := some x } := by
  unfold VideoInfo.set_thumbnail_url at he
  split at he
  · cases he
  · split at he
    · cases he
    · simp only [Except.ok.injEq] at he
      exact he.symm

/-- The cross-field date invariant of `VideoInfo`: every stored date is
timezone-aware and `publish_date ≤ last_updated` (as instants) whenever both
are stored. -/
def VideoInfo.datesInv (v : VideoInfo) : Prop :=
  (∀ d, v.publish_date = some d → d.tz.isSome = true) ∧
  (∀ d, v.last_updated = some d → d.tz.isSome = true) ∧
  (∀ pd lu, v.publish_date = some pd → v.last_updated = some lu →
    pd.abs ≤ lu.abs)

/-- C2: for every `VideoInfo` instance, `publish_date ≤ last_updated` holds
after construction and after any successful subsequent assignment to
`publish_date` or `last_updated`; each date setter validates against the
counterpart field exactly when that counterpart already holds a value, so
both setters preserve the invariant. -/
theorem video_publish_before_update :
    (∀ (urlOk : String → Bool) (cid cname vid vtitle : String) (pd lu : DT)
      (dur : Int) (desc : String) (kws : List String) (turl : String)
      (imm : Bool) (now : Int) (v : VideoInfo),
      VideoInfo.init urlOk cid cname vid vtitle pd lu dur desc kws turl imm
        now = .ok v →
      v.publish_date = some pd ∧ v.last_updated = some lu ∧
        pd.abs ≤ lu.abs ∧ v.datesInv) ∧
    (∀ (v : VideoInfo) (nd : DT) (v' : VideoInfo), v.datesInv →
      v.set_publish_date nd = .ok v' →
      v'.datesInv ∧ v'.publish_date = some nd ∧
        v'.last_updated = v.last_updated) ∧
    (∀ (v : VideoInfo) (nd : DT) (now : Int) (v' : VideoInfo), v.datesInv →
      v.set_last_updated nd now = .ok v' →
      v'.datesInv ∧ v'.last_updated = some nd ∧
        v'.publish_date = v.publish_date) := by
  refine ⟨?_, ?_, ?_⟩
  · intro urlOk cid cname vid vtitle pd lu dur desc kws turl imm now v h
    unfold VideoInfo.init at h
    rw [except_bind_ok] at h
    obtain ⟨v1, h1, h⟩ := h
    rw [except_bind_ok] at h
    obtain ⟨v2, h2, h⟩ := h
    rw [except_bind_ok] at h
    obtain ⟨v3, h3, h⟩ := h
    rw [except_bind_ok] at h
    obtain ⟨v4, h4, h⟩ := h
    rw [except_bind_ok] at h
    obtain ⟨v5, h5, h⟩ := h
    rw [except_bind_ok] at h
    obtain ⟨v6, h6, h⟩ := h
    rw [except_bind_ok] at h
    obtain ⟨v7, h7, h⟩ := h
    rw [except_bind_ok] at h
    obtain ⟨v8, h8, h⟩ := h
    rw [except_bind_ok] at h
    obtain ⟨v9, h9, h⟩ := h
    have e1 := vid_set_channel_id_ok h1
    subst e1
    have e2 := vid_set_channel_name_ok h2
    subst e2
    have e3 := (vid_set_video_id_ok h3).1
    subst e3
    have e4 := vid_set_video_title_ok h4
    subst e4
    obtain ⟨e5, hpdtz, -⟩ := vid_set_publish_date_ok h5
    subst e5
    obtain ⟨e6, hlutz, hfut, hcross⟩ := vid_set_last_updated_ok h6
    subst e6
    have e7 := vid_set_duration_ok h7
    subst e7
    have e8 := vid_set_description_ok h8
    subst e8
    have e9 := vid_set_keywords_ok h9
    subst e9
    have e10 := vid_set_thumbnail_url_ok h
    subst e10
    have hple : pd.abs ≤ lu.abs := by
      have hc := hcross pd rfl
      exact pyDtLt_ok_false_le hlutz hpdtz hc
    refine ⟨rfl, rfl, hple, ?_, ?_, ?_⟩
    · intro d hd
      cases (show some pd = some d from hd)
      exact hpdtz
    · intro d hd
      cases (show some lu = some d from hd)
      exact hlutz
    · intro pd' lu' hp1 hp2
      cases (show some pd = some pd' from hp1)
      cases (show some lu = some lu' from hp2)
      exact hple
  · intro v nd v' hinv he
    obtain ⟨e, hndtz, hcross⟩ := vid_set_publish_date_ok he
    subst e
    refine ⟨⟨?_, ?_, ?_⟩, rfl, rfl⟩
    · intro d hd
      cases (show some nd = some d from hd)
      exact hndtz
    · intro d hd
      exact hinv.2.1 d hd
    · intro pd' lu' h1 h2
      cases (show some nd = some pd' from h1)
      have hg := hcross lu' h2
      exact pyDtLt_ok_false_le (hinv.2.1 lu' h2) hndtz hg
  · intro v nd now v' hinv he
    obtain ⟨e, hndtz, hfut, hcross⟩ := vid_set_last_updated_ok he
    subst e
    refine ⟨⟨?_, ?_, ?_⟩, rfl, rfl⟩
    · intro d hd
      exact hinv.1 d hd
    · intro d hd
      cases (show some nd = some d from hd)
      exact hndtz
    · intro pd' lu' h1 h2
      cases (show some nd = some lu' from h2)
      have hg := hcross pd' h1
      exact pyDtLt_ok_false_le hndtz (hinv.1 pd' h1) hg

theorem pyDtEq_refl (d : DT) : pyDtEq d d = true := by
  unfold pyDtEq
  cases d.tz <;> simp

/-- C3: serializing a validly constructed `ChannelInfo` with `to_json` and
reconstructing through the `from_json` loading path (at any later wall-clock
time, with either immutability flag) yields a record equal to the original
under the `PropertyDict` equality. -/
theorem channel_json_round_trip (cid cname : String) (lu : DT)
    (ab co fe vi : String) (imm : Bool) (now : Int) (imm2 : Bool)
    (now2 : Int) (c : ChannelInfo)
    (h : ChannelInfo.init cid cname lu ab co fe vi imm now = .ok c)
    (hmono : now ≤ now2) :
    ∃ j c2, c.to_json = some j ∧
      ChannelInfo.from_json j imm2 now2 = .ok c2 ∧
      ChannelInfo.propEq c2 c = true := by
  obtain ⟨hc, hlen, hpre, hne, htz, hfut⟩ := channel_init_ok_elim h
  subst hc
  have hle : lu.abs ≤ now := (pyDtGt_now_ok_false_iff htz).mp hfut
  have hfut2 : pyDtGt lu ⟨now2, some 0⟩ = .ok false :=
    (pyDtGt_now_ok_false_iff htz).mpr (le_trans hle hmono)
  refine ⟨⟨cid, cname, lu, ab, co, fe, vi⟩,
    ⟨imm2, some cid, some cname,
     some ⟨imm2, some ab, some co, some fe, some vi⟩, some lu⟩, rfl, ?_, ?_⟩
  · exact channel_init_ok_intro cid cname lu ab co fe vi imm2 now2 hlen hpre
      hne htz hfut2
  · unfold ChannelInfo.propEq HtmlDict.propEq
    simp [pyDtEq_refl]

instance {ε α : Type} [DecidableEq ε] [DecidableEq α] :
    DecidableEq (Except ε α) := fun x y =>
  match x, y with
  | .ok a, .ok b =>
    if h : a = b then .isTrue (by rw [h])
    else .isFalse (fun he => h (Except.ok.inj he))
  | .error a, .error b =>
    if h : a = b then .isTrue (by rw [h])
    else .isFalse (fun he => h (Except.error.inj he))
  | .ok _, .error _ => .isFalse (fun he => Except.noConfusion he)
  | .error _, .ok _ => .isFalse (fun he => Except.noConfusion he)

/-- Concrete record used by the C2 witness. -/
def c2Video : VideoInfo :=
  ⟨false, some "UC0123456789012345678901", some "c", some "aaaaaaaaaaa",
   some "t", some ⟨1, some 0⟩, some ⟨2, some 0⟩, some 5, some "", some ["k"],
   some "u"⟩

theorem video_publish_before_update_witness :
    c2Video.publish_date = some ⟨1, some 0⟩ ∧
    c2Video.last_updated = some ⟨2, some 0⟩ ∧
    (⟨1, some 0⟩ : DT).abs ≤ (⟨2, some 0⟩ : DT).abs ∧ c2Video.datesInv ∧
    (c2Video.datesInv ∧ c2Video.publish_date = some ⟨1, some 0⟩ ∧
      c2Video.last_updated = c2Video.last_updated) ∧
    (c2Video.datesInv ∧ c2Video.last_updated = some ⟨2, some 0⟩ ∧
      c2Video.publish_date = c2Video.publish_date) := by
  have h1 := video_publish_before_update.1 (fun _ => true)
    "UC0123456789012345678901" "c" "aaaaaaaaaaa" "t" ⟨1, some 0⟩ ⟨2, some 0⟩
    5 "" ["k"] "u" false 10 c2Video (by decide)
  have h2 := video_publish_before_update.2.1 c2Video ⟨1, some 0⟩ c2Video
    h1.2.2.2 (by decide)
  have h3 := video_publish_before_update.2.2 c2Video ⟨2, some 0⟩ 10 c2Video
    h1.2.2.2 (by decide)
  exact ⟨h1.1, h1.2.1, h1.2.2.1, h1.2.2.2, h2, h3⟩

/-- Concrete record used by the C3 witness. -/
def c3Channel : ChannelInfo :=
  ⟨true, some "UC0123456789012345678901", some "n",
   some ⟨true, some "a", some "b", some "c", some "d"⟩, some ⟨5, some 0⟩⟩

theorem channel_json_round_trip_witness :
    ∃ j c2, c3Channel.to_json = some j ∧
      ChannelInfo.from_json j false 10 = .ok c2 ∧
      ChannelInfo.propEq c2 c3Channel = true :=
  channel_json_round_trip "UC0123456789012345678901" "n" ⟨5, some 0⟩
    "a" "b" "c" "d" true 7 false 10 c3Channel (by decide) (by decide)

/-- Concrete records used by the C4 witness. -/
def c4ChannelImm : ChannelInfo :=
  ⟨true, some "UC0123456789012345678901", some "n",
   some ⟨true, some "a", some "b", some "c", some "d"⟩, some ⟨5, some 0⟩⟩

/-- Mutable variant for the C4 witness. -/
def c4ChannelMut : ChannelInfo :=
  ⟨false, some "UC0123456789012345678901", some "n",
   some ⟨false, some "a", some "b", some "c", some "d"⟩, some ⟨5, some 0⟩⟩

/-- Immutable `VideoInfo` for the C4 witness. -/
def c4VideoImm : VideoInfo :=
  ⟨true, some "UC0123456789012345678901", some "c", some "aaaaaaaaaaa",
   some "t", some ⟨1, some 0⟩, some ⟨2, some 0⟩, some 5, some "", some ["k"],
   some "u"⟩

/-- Mutable `VideoInfo` for the C4 witness. -/
def c4VideoMut : VideoInfo :=
  ⟨false, some "UC0123456789012345678901", some "c", some "aaaaaaaaaaa",
   some "t", some ⟨1, some 0⟩, some ⟨2, some 0⟩, some 5, some "", some ["k"],
   some "u"⟩

theorem except_ok_bind {ε α β : Type} (a : α) (f : α → Except ε β) :
    ((Except.ok a : Except ε α) >>= f) = f a := rfl

theorem except_error_bind {ε α β : Type} (e : ε) (f : α → Except ε β) :
    ((Except.error e : Except ε α) >>= f) = .error e := rfl

/-- C6: in every store reachable through the public operations the
(`video_id`, `timestamp`) pair is unique across all rows, and after every
successful insertion through `add_row` the rows are additionally sorted
ascending by (`video_id`, `timestamp`). -/
theorem stats_rows_unique_and_sorted :
    (∀ s : StatsState, Reachable s → uniqRows s) ∧
    (∀ (s : StatsState) (v : String) (ts : DT) (vw : Int) (r : Option ℚ)
      (l d : Option Int) (now : Int) (s' : StatsState), Reachable s →
      addRow s v ts vw r l d now = .ok s' → uniqRows s' ∧ sortedRows s') :=
  ⟨fun _ hs => (reachable_inv hs).1,
   fun s v ts vw r l d now s' hs hok =>
     ⟨(reachable_inv (Reachable.step s v ts vw r l d now s' hs hok)).1,
      addRow_sorted hok⟩⟩

theorem stats_rows_unique_and_sorted_witness :
    uniqRows emptyStats ∧
    (uniqRows ⟨[(0, ⟨"aaaaaaaaaaa", ⟨1, none⟩, some 0, none, none, none⟩)]⟩ ∧
     sortedRows
       ⟨[(0, ⟨"aaaaaaaaaaa", ⟨1, none⟩, some 0, none, none, none⟩)]⟩) :=
  ⟨stats_rows_unique_and_sorted.1 emptyStats Reachable.empty,
   stats_rows_unique_and_sorted.2 emptyStats "aaaaaaaaaaa" ⟨1, none⟩ 0 none
     none none 5 ⟨[(0, ⟨"aaaaaaaaaaa", ⟨1, none⟩, some 0, none, none,
       none⟩)]⟩ Reachable.empty (by decide)⟩

/-- C5: `add_row` on an otherwise valid argument list whose (`video_id`,
`timestamp`) pair already exists in the store raises the duplicate-row
`ValueError`, and the store is exactly what it was before the call. -/
theorem add_row_duplicate_rejected (s : StatsState) (v : String) (ts : DT)
    (vw : Int) (r : Option ℚ) (l d : Option Int) (now : Int)
    (hid : is_video_id v = true) (htz : ts.tz = none)
    (hpast : ¬ ts.naive > now) (hvw : ¬ vw < 0)
    (hr : checkRating r = .ok ()) (hl : checkCount "`likes`" l = .ok ())
    (hd : checkCount "`dislikes`" d = .ok ())
    (hdup : s.rows.any (fun p => p.2.videoId == v &&
      pyDtEq p.2.timestamp ts) = true) :
    addRowRun s v ts vw r l d now
      = (some (.valueError "duplicate row"), s) := by
  have hgt : pyDtGt ts ⟨now, none⟩ = .ok false := by
    unfold pyDtGt pyDtLt
    rw [htz]
    simp only [Except.ok.injEq, decide_eq_false_iff_not]
    omega
  have herr : addRow s v ts vw r l d now
      = .error (.valueError "duplicate row") := by
    unfold addRow
    rw [if_neg (by simp [hid]), hgt, except_ok_bind, if_neg (by simp),
      if_neg hvw, hr, except_ok_bind, hl, except_ok_bind, hd,
      except_ok_bind, if_pos hdup]
  unfold addRowRun
  rw [herr]

theorem add_row_duplicate_rejected_witness :
    addRowRun ⟨[(0, ⟨"aaaaaaaaaaa", ⟨1, none⟩, some 2, some 1, none,
      none⟩)]⟩ "aaaaaaaaaaa" ⟨1, none⟩ 3 (some 1) none none 5
      = (some (.valueError "duplicate row"),
         ⟨[(0, ⟨"aaaaaaaaaaa", ⟨1, none⟩, some 2, some 1, none, none⟩)]⟩) :=
  add_row_duplicate_rejected
    ⟨[(0, ⟨"aaaaaaaaaaa", ⟨1, none⟩, some 2, some 1, none, none⟩)]⟩
    "aaaaaaaaaaa" ⟨1, none⟩ 3 (some 1) none none 5 (by decide) rfl
    (by decide) (by decide) (by decide) rfl rfl (by decide)

theorem forEachCheck_ok {α : Type} {l : List α} {f : α → Except PyErr Unit}
    (h : ∀ p ∈ l, f p = .ok ()) : forEachCheck f l = .ok () := by
  induction l with
  | nil => rfl
  | cons a rest ih =>
    unfold forEachCheck
    rw [h a (List.mem_cons_self _ _), except_ok_bind]
    exact ih (fun p hp => h p (List.mem_cons_of_mem _ hp))

theorem check_timestamp_aware {t : DT} {now : Int}
    (htz : t.tz.isSome = true) : check_timestamp t now = .ok () := by
  rcases ht : t.tz with _ | o
  · rw [ht] at htz
    simp at htz
  unfold check_timestamp pyDtGt pyDtLt
  rw [ht]
  simp

/-- C9: in the bulk construction path every timezone-aware timestamp is
accepted even when it lies strictly in the future (the `check_timestamp`
helper composes the future-timestamp error message but never raises it),
whereas the single-row `add_row` path rejects a future timestamp with a
`ValueError`. -/
theorem future_timestamps_bulk_vs_add_row :
    (∀ (raw : List RawRow) (now : Int),
      (∀ p ∈ survivorsOf raw, is_video_id p.2.videoId = true ∧
        p.2.timestamp.tz.isSome = true) →
      (∀ p ∈ survivorsOf raw, p.2.timestamp.abs > now) →
      statsInit raw false now = .ok ⟨survivorsOf raw⟩) ∧
    (∀ (s : StatsState) (v : String) (ts : DT) (vw : Int) (r : Option ℚ)
      (l d : Option Int) (now : Int), is_video_id v = true → ts.tz = none →
      ts.naive > now →
      addRow s v ts vw r l d now = .error (.valueError
        "`timestamp` must be a datetime.datetime object (timestamp in the future)")) := by
  constructor
  · intro raw now hvalid _hfut
    unfold statsInit
    rw [forEachCheck_ok (fun p hp => by
        unfold check_video_id
        rw [if_pos ((hvalid p hp).1)]), except_ok_bind]
    rw [forEachCheck_ok (fun p hp => check_timestamp_aware (hvalid p hp).2),
      except_ok_bind]
    rw [if_neg (by simp)]
  · intro s v ts vw r l d now hid htz hfut
    have hgt : pyDtGt ts ⟨now, none⟩ = .ok true := by
      unfold pyDtGt pyDtLt
      rw [htz]
      simp only [Except.ok.injEq, decide_eq_true_eq]
      omega
    unfold addRow
    rw [if_neg (by simp [hid]), hgt, except_ok_bind, if_pos rfl]

theorem future_timestamps_bulk_vs_add_row_witness :
    statsInit [⟨some "aaaaaaaaaaa", some ⟨100, some 0⟩, some 1, none, none,
      none⟩] false 5
      = .ok ⟨survivorsOf [⟨some "aaaaaaaaaaa", some ⟨100, some 0⟩, some 1,
          none, none, none⟩]⟩ ∧
    addRow emptyStats "aaaaaaaaaaa" ⟨100, none⟩ 1 none none none 5
      = .error (.valueError
        "`timestamp` must be a datetime.datetime object (timestamp in the future)") :=
  ⟨future_timestamps_bulk_vs_add_row.1
     [⟨some "aaaaaaaaaaa", some ⟨100, some 0⟩, some 1, none, none, none⟩] 5
     (by decide) (by decide),
   future_timestamps_bulk_vs_add_row.2 emptyStats "aaaaaaaaaaa" ⟨100, none⟩
     1 none none none 5 (by decide) rfl (by decide)⟩

/-- C10: `add_row` compares the timestamp against the timezone-naive
`datetime.now()`, so a timezone-aware timestamp (with the earlier `video_id`
validation passing) raises `TypeError` before any mutation, and no
timezone-aware sample can ever be inserted through `add_row`. -/
theorem add_row_rejects_aware_timestamps :
    (∀ (s : StatsState) (v : String) (ts : DT) (vw : Int) (r : Option ℚ)
      (l d : Option Int) (now : Int), is_video_id v = true →
      ts.tz.isSome = true →
      addRowRun s v ts vw r l d now = (some (.typeError dtCmpErrMsg), s)) ∧
    (∀ (s : StatsState) (v : String) (ts : DT) (vw : Int) (r : Option ℚ)
      (l d : Option Int) (now : Int) (s' : StatsState),
      ts.tz.isSome = true → addRow s v ts vw r l d now ≠ .ok s') := by
  have key : ∀ (s : StatsState) (v : String) (ts : DT) (vw : Int)
      (r : Option ℚ) (l d : Option Int) (now : Int), is_video_id v = true →
      ts.tz.isSome = true →
      addRow s v ts vw r l d now = .error (.typeError dtCmpErrMsg) := by
    intro s v ts vw r l d now hid htz
    have hgt : pyDtGt ts ⟨now, none⟩ = .error (.typeError dtCmpErrMsg) := by
      rcases ht : ts.tz with _ | o
      · rw [ht] at htz
        simp at htz
      unfold pyDtGt pyDtLt
      rw [ht]
    unfold addRow
    rw [if_neg (by simp [hid]), hgt, except_error_bind]
  constructor
  · intro s v ts vw r l d now hid htz
    unfold addRowRun
    rw [key s v ts vw r l d now hid htz]
  · intro s v ts vw r l d now s' htz hok
    by_cases hid : is_video_id v = true
    · rw [key s v ts vw r l d now hid htz] at hok
      cases hok
    · unfold addRow at hok
      rw [if_pos (by simpa using hid)] at hok
      cases hok

theorem add_row_rejects_aware_timestamps_witness :
    addRowRun emptyStats "aaaaaaaaaaa" ⟨1, some 0⟩ 1 none none none 5
      = (some (.typeError dtCmpErrMsg), emptyStats) ∧
    addRow emptyStats "aaaaaaaaaaa" ⟨1, some 0⟩ 1 none none none 5
      ≠ .ok emptyStats :=
  ⟨add_row_rejects_aware_timestamps.1 emptyStats "aaaaaaaaaaa" ⟨1, some 0⟩
     1 none none none 5 (by decide) rfl,
   add_row_rejects_aware_timestamps.2 emptyStats "aaaaaaaaaaa" ⟨1, some 0⟩
     1 none none none 5 emptyStats rfl⟩

/-- C1 evaluated at the spec's concrete scenario: the call
`add_row("12345678901", now_utc, 100, likes=80, dislikes=20)` with a
timezone-aware current timestamp raises `TypeError` (from the order
comparison against the naive `datetime.now()`) instead of storing a row with
rating `4.0`; the store is left unchanged. -/
theorem add_row_spec_scenario_typeerror :
    addRowRun emptyStats "12345678901" ⟨50, some 0⟩ 100 none (some 80)
      (some 20) 50 = (some (.typeError dtCmpErrMsg), emptyStats) := by
  decide

/-- C8 evaluated on a two-insertion store: inserting the later sample first
leaves the index labels permuted relative to positions after the re-sort, and
`most_recent` (which feeds `idxmax` LABELS into the positional `.iloc`)
returns the EARLIER sample's field mapping instead of the later one. -/
theorem most_recent_selects_by_stale_position :
    addRow emptyStats "aaaaaaaaaaa" ⟨2, none⟩ 0 none none none 100
      = .ok ⟨[(0, ⟨"aaaaaaaaaaa", ⟨2, none⟩, some 0, none, none, none⟩)]⟩ ∧
    addRow ⟨[(0, ⟨"aaaaaaaaaaa", ⟨2, none⟩, some 0, none, none, none⟩)]⟩
      "aaaaaaaaaaa" ⟨1, none⟩ 0 none none none 100
      = .ok ⟨[(1, ⟨"aaaaaaaaaaa", ⟨1, none⟩, some 0, none, none, none⟩),
              (0, ⟨"aaaaaaaaaaa", ⟨2, none⟩, some 0, none, none, none⟩)]⟩ ∧
    mostRecent ⟨[(1, ⟨"aaaaaaaaaaa", ⟨1, none⟩, some 0, none, none, none⟩),
                 (0, ⟨"aaaaaaaaaaa", ⟨2, none⟩, some 0, none, none, none⟩)]⟩
      = .ok [("aaaaaaaaaaa",
              ⟨"aaaaaaaaaaa", ⟨1, none⟩, some 0, none, none, none⟩)] := by
  refine ⟨by decide, by decide, by decide⟩

/-- Whether a cell already has the scalar kind of a native dtype (missing
values conform to every dtype). -/
def cellConforms : Dtype → Cell → Bool
  | _, .na => true
  | .obj, _ => true
  | .i64, .cInt _ => true
  | .f64, .cFloat _ => true
  | .c128, .cComplex _ _ => true
  | .strD, .cStr _ => true
  | .boolD, .cBool _ => true
  | .dt64, .cDt _ => true
  | .td64, .cTd _ => true
  | _, _ => false

theorem castCell_ok_conforms {d : Dtype} {c c' : Cell}
    (h : castCell d c = .ok c') : cellConforms d c' = true := by
  cases d <;> cases c <;>
    simp only [castCell, Except.ok.injEq] at h <;>
    first
      | (subst h; rfl)
      | cases h
      | (split at h <;>
          first
            | (simp only [Except.ok.injEq] at h; subst h; rfl)
            | cases h)

theorem conforms_castCell_id {d : Dtype} {c : Cell}
    (h : cellConforms d c = true) : castCell d c = .ok c := by
  cases d <;> cases c <;> simp_all [cellConforms, castCell]

theorem mapM_ok_forall {α β : Type} {f : α → Except PyErr β} {l : List α}
    {l' : List β} (h : l.mapM f = .ok l') :
    ∀ y ∈ l', ∃ x, f x = .ok y := by
  induction l generalizing l' with
  | nil =>
    simp only [List.mapM_nil] at h
    cases h
    simp
  | cons a rest ih =>
    rw [List.mapM_cons] at h
    rw [except_bind_ok] at h
    obtain ⟨b, hb, h⟩ := h
    rw [except_bind_ok] at h
    obtain ⟨bs, hbs, h⟩ := h
    simp only [pure, Except.pure, Except.ok.injEq] at h
    subst h
    intro y hy
    rcases List.mem_cons.mp hy with hy | hy
    · exact ⟨a, hy ▸ hb⟩
    · exact ih hbs y hy

theorem mapM_id_of_ok {α : Type} {f : α → Except PyErr α} {l : List α}
    (h : ∀ x ∈ l, f x = .ok x) : l.mapM f = .ok l := by
  induction l with
  | nil => rfl
  | cons a rest ih =>
    rw [List.mapM_cons, h a (List.mem_cons_self _ _), except_ok_bind,
      ih (fun x hx => h x (List.mem_cons_of_mem _ hx)), except_ok_bind]
    rfl

theorem astype_ok_shape {c : Column} {d : Dtype} {c' : Column}
    (h : astype c d = .ok c') :
    c'.dtype = d ∧ ∀ x ∈ c'.cells, cellConforms d x = true := by
  unfold astype at h
  rw [except_bind_ok] at h
  obtain ⟨cs, hcs, h⟩ := h
  simp only [Except.ok.injEq] at h
  subst h
  refine ⟨rfl, ?_⟩
  intro x hx
  obtain ⟨y, hy⟩ := mapM_ok_forall hcs x hx
  exact castCell_ok_conforms hy

theorem astype_self {c : Column} {d : Dtype} (hd : c.dtype = d)
    (hc : ∀ x ∈ c.cells, cellConforms d x = true) : astype c d = .ok c := by
  unfold astype
  rw [mapM_id_of_ok (fun x hx => conforms_castCell_id (hc x hx)),
    except_ok_bind]
  rw [← hd]

theorem getCol_setCol {df : DataFrame} {col : String} {c c' : Column}
    (h : getCol df col = .ok c) :
    getCol (setCol df col c') col = .ok c' := by
  induction df with
  | nil => simp [getCol] at h
  | cons p rest ih =>
    by_cases hp : p.1 = col
    · unfold getCol setCol
      simp [hp]
    · unfold getCol at h
      rw [List.find?_cons_of_neg _ (by simpa using hp)] at h
      unfold setCol
      simp only [List.map_cons, if_neg (show ¬ (p.1 == col) = true by
        simpa using hp)]
      unfold getCol
      rw [List.find?_cons_of_neg _ (by simpa using hp)]
      exact ih h

theorem setCol_setCol (df : DataFrame) (col : String) (c : Column) :
    setCol (setCol df col c) col c = setCol df col c := by
  unfold setCol
  rw [List.map_map]
  apply List.map_congr_left
  intro p _
  by_cases hp : p.1 = col <;> simp [hp]

theorem check_column_ok_of_getCol {df : DataFrame} {col : String}
    {c : Column} (h : getCol df col = .ok c) (arg : TypespecArg) :
    ∃ b, check_column df col arg = .ok b := by
  cases arg with
  | single t =>
    by_cases hs : t = Typespec.tStr ∧
        is_object_dtype (convert_dtypes c).dtype = true
    · exact ⟨false, by simp [check_column, h, hs, except_ok_bind]⟩
    · exact ⟨dtypeCheckOf t (convert_dtypes c).dtype,
        by simp [check_column, h, hs, except_ok_bind]⟩
  | multi ts =>
    refine ⟨ts.any (fun t =>
      if t = Typespec.tStr ∧ is_object_dtype (convert_dtypes c).dtype = true
      then false else dtypeCheckOf t (convert_dtypes c).dtype), ?_⟩
    unfold check_column
    rw [h, except_ok_bind]

theorem check_dtypes_single_ok_of_getCol {df : DataFrame} {col : String}
    {c : Column} (h : getCol df col = .ok c) (arg : TypespecArg) :
    ∃ b, check_dtypes df [(col, arg)] = .ok b := by
  obtain ⟨b, hb⟩ := check_column_ok_of_getCol h arg
  unfold check_dtypes checkAll
  rw [hb, except_ok_bind]
  cases b with
  | true => exact ⟨true, by rw [if_pos rfl]; rfl⟩
  | false => exact ⟨false, by rw [if_neg (by simp)]⟩

theorem check_dtypes_single_getCol {df : DataFrame} {col : String}
    {arg : TypespecArg} {b : Bool}
    (h : check_dtypes df [(col, arg)] = .ok b) :
    ∃ c, getCol df col = .ok c := by
  unfold check_dtypes checkAll check_column at h
  rcases hg : getCol df col with e | c
  · rw [hg] at h
    cases h
  · exact ⟨c, rfl⟩

/-- C7: `coerce_dtypes` is idempotent — whenever coercing a column to a
typespec succeeds, applying the same coercion to the already-coerced result
succeeds and returns it unchanged. -/
theorem coerce_dtypes_idempotent (df : DataFrame) (col : String)
    (arg : TypespecArg) (r : DataFrame)
    (h : coerce_dtypes df [(col, arg)] = .ok r) :
    coerce_dtypes r [(col, arg)] = .ok r := by
  unfold coerce_dtypes at h ⊢
  rw [if_neg (by simp)] at h ⊢
  unfold coerceLoop at h
  rcases hchk : check_dtypes df [(col, arg)] with e | b
  · rw [hchk, except_error_bind] at h
    cases h
  rw [hchk, except_ok_bind] at h
  cases b with
  | true =>
    unfold coerceLoop at h
    simp only [if_pos rfl] at h
    rcases h with h
    cases h
    unfold coerceLoop
    rw [hchk, except_ok_bind, if_pos rfl]
    unfold coerceLoop
    rfl
  | false =>
    rw [if_neg (by simp)] at h
    rcases harg : lookupArg arg with _ | dty
    · rw [harg] at h
      cases h
    rw [harg] at h
    rcases hget : getCol df col with e | c
    · rw [hget] at h
      cases e <;> cases h
    rw [hget] at h
    rw [except_bind_ok] at h
    obtain ⟨c', hc', h⟩ := h
    unfold coerceLoop at h
    simp only [Except.ok.injEq] at h
    subst h
    obtain ⟨hdty, hconf⟩ := astype_ok_shape hc'
    have hget2 : getCol (setCol df col c') col = .ok c' := getCol_setCol hget
    obtain ⟨b2, hb2⟩ := check_dtypes_single_ok_of_getCol hget2 arg
    unfold coerceLoop
    rw [hb2, except_ok_bind]
    cases b2 with
    | true =>
      rw [if_pos rfl]
      unfold coerceLoop
      rfl
    | false =>
      rw [if_neg (by simp), harg]
      simp only []
      rw [hget2]
      simp only []
      rw [astype_self hdty hconf, except_ok_bind]
      unfold coerceLoop
      rw [setCol_setCol]

theorem coerce_dtypes_idempotent_witness :
    coerce_dtypes [("a", ⟨Dtype.i64, [Cell.cInt 1]⟩)]
      [("a", TypespecArg.single Typespec.tFloat)]
      = .ok [("a", ⟨Dtype.f64, [Cell.cFloat 1]⟩)] ∧
    coerce_dtypes [("a", ⟨Dtype.f64, [Cell.cFloat 1]⟩)]
      [("a", TypespecArg.single Typespec.tFloat)]
      = .ok [("a", ⟨Dtype.f64, [Cell.cFloat 1]⟩)] :=
  ⟨by decide,
   coerce_dtypes_idempotent [("a", ⟨Dtype.i64, [Cell.cInt 1]⟩)] "a"
     (TypespecArg.single Typespec.tFloat)
     [("a", ⟨Dtype.f64, [Cell.cFloat 1]⟩)] (by decide)⟩

theorem isSome_not_isNone {α : Type} {o : Option α} (h : o.isSome = true) :
    ¬ o.isNone = true := by
  cases o <;> simp_all

/-- The state of a record after a setter call returns or raises: a raised
exception leaves the receiver untouched (in the source, the immutability and
validation raises precede the assignment statement). -/
def runSet {α : Type} (r : α) (e : Except PyErr α) : α :=
  match e with
  | .ok r' => r'
  | .error _ => r

/-- The cross-check `new_date > self.last_updated` of the `publish_date`
setter, run only when the counterpart already holds a value: the condition
for the setter to accept. -/
def crossGtOk (a : DT) : Option DT → Prop
  | none => True
  | some lu => pyDtGt a lu = .ok false

/-- The cross-check `new_date < self.publish_date` of the `last_updated`
setter, run only when the counterpart already holds a value: the condition
for the setter to accept. -/
def crossLtOk (a : DT) : Option DT → Prop
  | none => True
  | some pd => pyDtLt a pd = .ok false

/-- The three immutability-guard properties of one validated-setter call
`res` on a record `r` with field read `get`: (1) on an immutable record with
the field already set, the call raises the reassignment `AttributeError` and
the record — hence the field — keeps its old value; (2) the first
assignment (field still unset, as during construction) succeeds even when
immutable, for an argument satisfying the setter's `valid` format guards;
(3) on a mutable record the same call succeeds and a subsequent read of the
field returns the new value. -/
def guardSpec {α β : Type} (imm : Bool) (valid : Prop) (get : α → Option β)
    (r : α) (res : Except PyErr α) (updated : α) (newVal : β) : Prop :=
  (imm = true → (get r).isSome = true →
    (∃ m, res = .error (.attributeError m)) ∧ runSet r res = r) ∧
  (valid → get r = none → res = .ok updated) ∧
  (valid → imm = false → res = .ok updated ∧ get updated = some newVal)

/-- C4: for every setter of every record type (`HtmlDict`, `ChannelInfo`,
`VideoInfo`), a call targeting a field that already holds a value on an
immutable record fails with the reassignment `AttributeError` and the field
keeps its old value; the first assignment during construction (field still
unset) is allowed; and on a mutable record the same reassignment succeeds
with a subsequent read returning the new value. -/
theorem immutable_reassignment_guard :
    (∀ (h : HtmlDict) (a : String), guardSpec h.immutable True
      HtmlDict.about h (h.set_about a) { h with about := some a } a) ∧
    (∀ (h : HtmlDict) (a : String), guardSpec h.immutable True
      HtmlDict.community h (h.set_community a)
      { h with community := some a } a) ∧
    (∀ (h : HtmlDict) (a : String), guardSpec h.immutable True
      HtmlDict.featured_channels h (h.set_featured_channels a)
      { h with featured_channels := some a } a) ∧
    (∀ (h : HtmlDict) (a : String), guardSpec h.immutable True
      HtmlDict.videos h (h.set_videos a) { h with videos := some a } a) ∧
    (∀ (c : ChannelInfo) (a : String), guardSpec c.immutable
      (a.length = 24 ∧ strStartsWith a "UC" = true) ChannelInfo.channel_id c
      (c.set_channel_id a) { c with channel_id := some a } a) ∧
    (∀ (c : ChannelInfo) (a : String), guardSpec c.immutable (a ≠ "")
      ChannelInfo.channel_name c (c.set_channel_name a)
      { c with channel_name := some a } a) ∧
    (∀ (c : ChannelInfo) (a : HtmlDict), guardSpec c.immutable True
      ChannelInfo.html c (c.set_html a)
      { c with html := some { a with immutable := c.immutable } }
      { a with immutable := c.immutable }) ∧
    (∀ (c : ChannelInfo) (a : DT) (now : Int), guardSpec c.immutable
      (a.tz.isSome = true ∧ pyDtGt a ⟨now, some 0⟩ = .ok false)
      ChannelInfo.last_updated c (c.set_last_updated a now)
      { c with last_updated := some a } a) ∧
    (∀ (v : VideoInfo) (a : String), guardSpec v.immutable
      (a.length = 24 ∧ strStartsWith a "UC" = true) VideoInfo.channel_id v
      (v.set_channel_id a) { v with channel_id := some a } a) ∧
    (∀ (v : VideoInfo) (a : String), guardSpec v.immutable (a ≠ "")
      VideoInfo.channel_name v (v.set_channel_name a)
      { v with channel_name := some a } a) ∧
    (∀ (v : VideoInfo) (a : String), guardSpec v.immutable (a.length = 11)
      VideoInfo.video_id v (v.set_video_id a)
      { v with video_id := some a } a) ∧
    (∀ (v : VideoInfo) (a : String), guardSpec v.immutable (a ≠ "")
      VideoInfo.video_title v (v.set_video_title a)
      { v with video_title := some a } a) ∧
    (∀ (v : VideoInfo) (a : DT), guardSpec v.immutable
      (a.tz.isSome = true ∧ crossGtOk a v.last_updated)
      VideoInfo.publish_date v (v.set_publish_date a)
      { v with publish_date := some a } a) ∧
    (∀ (v : VideoInfo) (a : DT) (now : Int), guardSpec v.immutable
      (a.tz.isSome = true ∧ pyDtGt a ⟨now, some 0⟩ = .ok false ∧
        crossLtOk a v.publish_date)
      VideoInfo.last_updated v (v.set_last_updated a now)
      { v with last_updated := some a } a) ∧
    (∀ (v : VideoInfo) (a : Int), guardSpec v.immutable (¬ a < 0)
      VideoInfo.duration v (v.set_duration a)
      { v with duration := some a } a) ∧
    (∀ (v : VideoInfo) (a : String), guardSpec v.immutable True
      VideoInfo.description v (v.set_description a)
      { v with description := some a } a) ∧
    (∀ (v : VideoInfo) (a : List String), guardSpec v.immutable
      (a.any (fun k => k = "") = false) VideoInfo.keywords v
      (v.set_keywords a) { v with keywords := some a } a) ∧
    (∀ (v : VideoInfo) (urlOk : String → Bool) (a : String),
      guardSpec v.immutable (urlOk a = true) VideoInfo.thumbnail_url v
      (v.set_thumbnail_url urlOk a)
      { v with thumbnail_url := some a } a) := by
  refine ⟨?_, ?_, ?_, ?_, ?_, ?_, ?_, ?_, ?_, ?_, ?_, ?_, ?_, ?_, ?_, ?_,
    ?_, ?_⟩
  · intro r a
    refine ⟨?_, ?_, ?_⟩
    · intro himm hsome
      have herr : r.set_about a = .error (.attributeError
          "cannot reassign `about`: HtmlDict instance is immutable") := by
        unfold HtmlDict.set_about
        rw [if_pos ⟨himm, hsome⟩]
      exact ⟨⟨_, herr⟩, by unfold runSet; rw [herr]⟩
    · intro _ hnone
      unfold HtmlDict.set_about
      rw [if_neg (by rw [hnone]; simp)]
    · intro _ himm
      refine ⟨?_, rfl⟩
      unfold HtmlDict.set_about
      rw [if_neg (by rw [himm]; simp)]
  · intro r a
    refine ⟨?_, ?_, ?_⟩
    · intro himm hsome
      have herr : r.set_community a = .error (.attributeError
          "cannot reassign `community`: HtmlDict instance is immutable") := by
        unfold HtmlDict.set_community
        rw [if_pos ⟨himm, hsome⟩]
      exact ⟨⟨_, herr⟩, by unfold runSet; rw [herr]⟩
    · intro _ hnone
      unfold HtmlDict.set_community
      rw [if_neg (by rw [hnone]; simp)]
    · intro _ himm
      refine ⟨?_, rfl⟩
      unfold HtmlDict.set_community
      rw [if_neg (by rw [himm]; simp)]
  · intro r a
    refine ⟨?_, ?_, ?_⟩
    · intro himm hsome
      have herr : r.set_featured_channels a = .error (.attributeError
          "cannot reassign `featured_channels`: HtmlDict instance is immutable") := by
        unfold HtmlDict.set_featured_channels
        rw [if_pos ⟨himm, hsome⟩]
      exact ⟨⟨_, herr⟩, by unfold runSet; rw [herr]⟩
    · intro _ hnone
      unfold HtmlDict.set_featured_channels
      rw [if_neg (by rw [hnone]; simp)]
    · intro _ himm
      refine ⟨?_, rfl⟩
      unfold HtmlDict.set_featured_channels
      rw [if_neg (by rw [himm]; simp)]
  · intro r a
    refine ⟨?_, ?_, ?_⟩
    · intro himm hsome
      have herr : r.set_videos a = .error (.attributeError
          "cannot reassign `videos`: HtmlDict instance is immutable") := by
        unfold HtmlDict.set_videos
        rw [if_pos ⟨himm, hsome⟩]
      exact ⟨⟨_, herr⟩, by unfold runSet; rw [herr]⟩
    · intro _ hnone
      unfold HtmlDict.set_videos
      rw [if_neg (by rw [hnone]; simp)]
    · intro _ himm
      refine ⟨?_, rfl⟩
      unfold HtmlDict.set_videos
      rw [if_neg (by rw [himm]; simp)]
  · intro c a
    refine ⟨?_, ?_, ?_⟩
    · intro himm hsome
      have herr : c.set_channel_id a = .error (.attributeError
          "cannot reassign `channel_id`: ChannelInfo instance is immutable") := by
        unfold ChannelInfo.set_channel_id
        rw [if_pos ⟨himm, hsome⟩]
      exact ⟨⟨_, herr⟩, by unfold runSet; rw [herr]⟩
    · intro hval hnone
      unfold ChannelInfo.set_channel_id
      rw [if_neg (by rw [hnone]; simp), if_neg (by simp [hval.1, hval.2])]
    · intro hval himm
      refine ⟨?_, rfl⟩
      unfold ChannelInfo.set_channel_id
      rw [if_neg (by rw [himm]; simp), if_neg (by simp [hval.1, hval.2])]
  · intro c a
    refine ⟨?_, ?_, ?_⟩
    · intro himm hsome
      have herr : c.set_channel_name a = .error (.attributeError
          "cannot reassign `channel_name`: ChannelInfo instance is immutable") := by
        unfold ChannelInfo.set_channel_name
        rw [if_pos ⟨himm, hsome⟩]
      exact ⟨⟨_, herr⟩, by unfold runSet; rw [herr]⟩
    · intro hval hnone
      unfold ChannelInfo.set_channel_name
      rw [if_neg (by rw [hnone]; simp), if_neg hval]
    · intro hval himm
      refine ⟨?_, rfl⟩
      unfold ChannelInfo.set_channel_name
      rw [if_neg (by rw [himm]; simp), if_neg hval]
  · intro c a
    refine ⟨?_, ?_, ?_⟩
    · intro himm hsome
      have herr : c.set_html a = .error (.attributeError
          "cannot reassign `html`: ChannelInfo instance is immutable") := by
        unfold ChannelInfo.set_html
        rw [if_pos ⟨himm, hsome⟩]
      exact ⟨⟨_, herr⟩, by unfold runSet; rw [herr]⟩
    · intro _ hnone
      unfold ChannelInfo.set_html
      rw [if_neg (by rw [hnone]; simp)]
    · intro _ himm
      refine ⟨?_, rfl⟩
      unfold ChannelInfo.set_html
      rw [if_neg (by rw [himm]; simp)]
  · intro c a now
    refine ⟨?_, ?_, ?_⟩
    · intro himm hsome
      have herr : c.set_last_updated a now = .error (.attributeError
          "cannot reassign `last_updated`: ChannelInfo instance is immutable") := by
        unfold ChannelInfo.set_last_updated
        rw [if_pos ⟨himm, hsome⟩]
      exact ⟨⟨_, herr⟩, by unfold runSet; rw [herr]⟩
    · intro hval hnone
      unfold ChannelInfo.set_last_updated
      rw [if_neg (by rw [hnone]; simp), if_neg (isSome_not_isNone hval.1),
        hval.2, except_ok_bind, if_neg (by simp)]
    · intro hval himm
      refine ⟨?_, rfl⟩
      unfold ChannelInfo.set_last_updated
      rw [if_neg (by rw [himm]; simp), if_neg (isSome_not_isNone hval.1),
        hval.2, except_ok_bind, if_neg (by simp)]
  · intro v a
    refine ⟨?_, ?_, ?_⟩
    · intro himm hsome
      have herr : v.set_channel_id a = .error (.attributeError
          "cannot reassign `channel_id`: VideoInfo instance is immutable") := by
        unfold VideoInfo.set_channel_id
        rw [if_pos ⟨himm, hsome⟩]
      exact ⟨⟨_, herr⟩, by unfold runSet; rw [herr]⟩
    · intro hval hnone
      unfold VideoInfo.set_channel_id
      rw [if_neg (by rw [hnone]; simp), if_neg (by simp [hval.1, hval.2])]
    · intro hval himm
      refine ⟨?_, rfl⟩
      unfold VideoInfo.set_channel_id
      rw [if_neg (by rw [himm]; simp), if_neg (by simp [hval.1, hval.2])]
  · intro v a
    refine ⟨?_, ?_, ?_⟩
    · intro himm hsome
      have herr : v.set_channel_name a = .error (.attributeError
          "cannot reassign `channel_name`: VideoInfo instance is immutable") := by
        unfold VideoInfo.set_channel_name
        rw [if_pos ⟨himm, hsome⟩]
      exact ⟨⟨_, herr⟩, by unfold runSet; rw [herr]⟩
    · intro hval hnone
      unfold VideoInfo.set_channel_name
      rw [if_neg (by rw [hnone]; simp), if_neg hval]
    · intro hval himm
      refine ⟨?_, rfl⟩
      unfold VideoInfo.set_channel_name
      rw [if_neg (by rw [himm]; simp), if_neg hval]
  · intro v a
    refine ⟨?_, ?_, ?_⟩
    · intro himm hsome
      have herr : v.set_video_id a = .error (.attributeError
          "cannot reassign `video_id`: VideoInfo instance is immutable") := by
        unfold VideoInfo.set_video_id
        rw [if_pos ⟨himm, hsome⟩]
      exact ⟨⟨_, herr⟩, by unfold runSet; rw [herr]⟩
    · intro hval hnone
      unfold VideoInfo.set_video_id
      rw [if_neg (by rw [hnone]; simp), if_neg (by simp [hval])]
    · intro hval himm
      refine ⟨?_, rfl⟩
      unfold VideoInfo.set_video_id
      rw [if_neg (by rw [himm]; simp), if_neg (by simp [hval])]
  · intro v a
    refine ⟨?_, ?_, ?_⟩
    · intro himm hsome
      have herr : v.set_video_title a = .error (.attributeError
          "cannot reassign `video_title`: VideoInfo instance is immutable") := by
        unfold VideoInfo.set_video_title
        rw [if_pos ⟨himm, hsome⟩]
      exact ⟨⟨_, herr⟩, by unfold runSet; rw [herr]⟩
    · intro hval hnone
      unfold VideoInfo.set_video_title
      rw [if_neg (by rw [hnone]; simp), if_neg hval]
    · intro hval himm
      refine ⟨?_, rfl⟩
      unfold VideoInfo.set_video_title
      rw [if_neg (by rw [himm]; simp), if_neg hval]
  · intro v a
    refine ⟨?_, ?_, ?_⟩
    · intro himm hsome
      have herr : v.set_publish_date a = .error (.attributeError
          "cannot reassign `publish_date`: VideoInfo instance is immutable") := by
        unfold VideoInfo.set_publish_date
        rw [if_pos ⟨himm, hsome⟩]
      exact ⟨⟨_, herr⟩, by unfold runSet; rw [herr]⟩
    · intro hval hnone
      have hcross := hval.2
      unfold VideoInfo.set_publish_date
      rw [if_neg (by rw [hnone]; simp), if_neg (isSome_not_isNone hval.1)]
      split
      · rename_i lu heq
        rw [heq] at hcross
        simp only [crossGtOk] at hcross
        rw [hcross, except_ok_bind, if_neg (by simp)]
      · rfl
    · intro hval himm
      have hcross := hval.2
      refine ⟨?_, rfl⟩
      unfold VideoInfo.set_publish_date
      rw [if_neg (by rw [himm]; simp), if_neg (isSome_not_isNone hval.1)]
      split
      · rename_i lu heq
        rw [heq] at hcross
        simp only [crossGtOk] at hcross
        rw [hcross, except_ok_bind, if_neg (by simp)]
      · rfl
  · intro v a now
    refine ⟨?_, ?_, ?_⟩
    · intro himm hsome
      have herr : v.set_last_updated a now = .error (.attributeError
          "cannot reassign `last_updated`: VideoInfo instance is immutable") := by
        unfold VideoInfo.set_last_updated
        rw [if_pos ⟨himm, hsome⟩]
      exact ⟨⟨_, herr⟩, by unfold runSet; rw [herr]⟩
    · intro hval hnone
      have hcross := hval.2.2
      unfold VideoInfo.set_last_updated
      rw [if_neg (by rw [hnone]; simp), if_neg (isSome_not_isNone hval.1),
        hval.2.1, except_ok_bind, if_neg (by simp)]
      split
      · rename_i pd heq
        rw [heq] at hcross
        simp only [crossLtOk] at hcross
        rw [hcross, except_ok_bind, if_neg (by simp)]
      · rfl
    · intro hval himm
      have hcross := hval.2.2
      refine ⟨?_, rfl⟩
      unfold VideoInfo.set_last_updated
      rw [if_neg (by rw [himm]; simp), if_neg (isSome_not_isNone hval.1),
        hval.2.1, except_ok_bind, if_neg (by simp)]
      split
      · rename_i pd heq
        rw [heq] at hcross
        simp only [crossLtOk] at hcross
        rw [hcross, except_ok_bind, if_neg (by simp)]
      · rfl
  · intro v a
    refine ⟨?_, ?_, ?_⟩
    · intro himm hsome
      have herr : v.set_duration a = .error (.attributeError
          "cannot reassign `duration`: VideoInfo instance is immutable") := by
        unfold VideoInfo.set_duration
        rw [if_pos ⟨himm, hsome⟩]
      exact ⟨⟨_, herr⟩, by unfold runSet; rw [herr]⟩
    · intro hval hnone
      unfold VideoInfo.set_duration
      rw [if_neg (by rw [hnone]; simp), if_neg hval]
    · intro hval himm
      refine ⟨?_, rfl⟩
      unfold VideoInfo.set_duration
      rw [if_neg (by rw [himm]; simp), if_neg hval]
  · intro v a
    refine ⟨?_, ?_, ?_⟩
    · intro himm hsome
      have herr : v.set_description a = .error (.attributeError
          "cannot reassign `description`: VideoInfo instance is immutable") := by
        unfold VideoInfo.set_description
        rw [if_pos ⟨himm, hsome⟩]
      exact ⟨⟨_, herr⟩, by unfold runSet; rw [herr]⟩
    · intro _ hnone
      unfold VideoInfo.set_description
      rw [if_neg (by rw [hnone]; simp)]
    · intro _ himm
      refine ⟨?_, rfl⟩
      unfold VideoInfo.set_description
      rw [if_neg (by rw [himm]; simp)]
  · intro v a
    refine ⟨?_, ?_, ?_⟩
    · intro himm hsome
      have herr : v.set_keywords a = .error (.attributeError
          "cannot reassign `keywords`: VideoInfo instance is immutable") := by
        unfold VideoInfo.set_keywords
        rw [if_pos ⟨himm, hsome⟩]
      exact ⟨⟨_, herr⟩, by unfold runSet; rw [herr]⟩
    · intro hval hnone
      unfold VideoInfo.set_keywords
      rw [if_neg (by rw [hnone]; simp), if_neg (by simp [hval])]
    · intro hval himm
      refine ⟨?_, rfl⟩
      unfold VideoInfo.set_keywords
      rw [if_neg (by rw [himm]; simp), if_neg (by simp [hval])]
  · intro v urlOk a
    refine ⟨?_, ?_, ?_⟩
    · intro himm hsome
      have herr : v.set_thumbnail_url urlOk a = .error (.attributeError
          "cannot reassign `thumbnail_url`: VideoInfo instance is immutable") := by
        unfold VideoInfo.set_thumbnail_url
        rw [if_pos ⟨himm, hsome⟩]
      exact ⟨⟨_, herr⟩, by unfold runSet; rw [herr]⟩
    · intro hval hnone
      unfold VideoInfo.set_thumbnail_url
      rw [if_neg (by rw [hnone]; simp), if_neg (by simp [hval])]
    · intro hval himm
      refine ⟨?_, rfl⟩
      unfold VideoInfo.set_thumbnail_url
      rw [if_neg (by rw [himm]; simp), if_neg (by simp [hval])]

/-- Immutable `HtmlDict` record for the C4 witness. -/
def c4HtmlImm : HtmlDict := ⟨true, some "a", some "b", some "c", some "d"⟩

/-- Fresh immutable `HtmlDict` with no field set, for the C4 witness. -/
def c4HtmlEmpty : HtmlDict := ⟨true, none, none, none, none⟩

/-- Mutable `HtmlDict` record for the C4 witness. -/
def c4HtmlMut : HtmlDict := ⟨false, some "a", some "b", some "c", some "d"⟩

/-- Fresh immutable `ChannelInfo` with no field set, for the C4 witness. -/
def c4ChannelEmpty : ChannelInfo := ⟨true, none, none, none, none⟩

/-- Fresh immutable `VideoInfo` with no field set, for the C4 witness. -/
def c4VideoEmpty : VideoInfo :=
  ⟨true, none, none, none, none, none, none, none, none, none, none⟩

theorem immutable_reassignment_guard_witness :
    ((∃ m, c4HtmlImm.set_about "z" = .error (.attributeError m)) ∧
      runSet c4HtmlImm (c4HtmlImm.set_about "z") = c4HtmlImm) ∧
    (c4HtmlEmpty.set_about "z" = .ok { c4HtmlEmpty with about := some "z" }) ∧
    (c4HtmlMut.set_about "z" = .ok { c4HtmlMut with about := some "z" } ∧
      ({ c4HtmlMut with about := some "z" } : HtmlDict).about = some "z") ∧
    ((∃ m, c4HtmlImm.set_community "z" = .error (.attributeError m)) ∧
      runSet c4HtmlImm (c4HtmlImm.set_community "z") = c4HtmlImm) ∧
    (c4HtmlEmpty.set_community "z" = .ok { c4HtmlEmpty with community := some "z" }) ∧
    (c4HtmlMut.set_community "z" = .ok { c4HtmlMut with community := some "z" } ∧
      ({ c4HtmlMut with community := some "z" } : HtmlDict).community = some "z") ∧
    ((∃ m, c4HtmlImm.set_featured_channels "z" = .error (.attributeError m)) ∧
      runSet c4HtmlImm (c4HtmlImm.set_featured_channels "z") = c4HtmlImm) ∧
    (c4HtmlEmpty.set_featured_channels "z" = .ok { c4HtmlEmpty with featured_channels := some "z" }) ∧
    (c4HtmlMut.set_featured_channels "z" = .ok { c4HtmlMut with featured_channels := some "z" } ∧
      ({ c4HtmlMut with featured_channels := some "z" } : HtmlDict).featured_channels = some "z") ∧
    ((∃ m, c4HtmlImm.set_videos "z" = .error (.attributeError m)) ∧
      runSet c4HtmlImm (c4HtmlImm.set_videos "z") = c4HtmlImm) ∧
    (c4HtmlEmpty.set_videos "z" = .ok { c4HtmlEmpty with videos := some "z" }) ∧
    (c4HtmlMut.set_videos "z" = .ok { c4HtmlMut with videos := some "z" } ∧
      ({ c4HtmlMut with videos := some "z" } : HtmlDict).videos = some "z") ∧
    ((∃ m, c4ChannelImm.set_channel_id "UC0000000000000000000000" = .error (.attributeError m)) ∧
      runSet c4ChannelImm (c4ChannelImm.set_channel_id "UC0000000000000000000000") = c4ChannelImm) ∧
    (c4ChannelEmpty.set_channel_id "UC0000000000000000000000" = .ok { c4ChannelEmpty with channel_id := some "UC0000000000000000000000" }) ∧
    (c4ChannelMut.set_channel_id "UC0000000000000000000000" = .ok { c4ChannelMut with channel_id := some "UC0000000000000000000000" } ∧
      ({ c4ChannelMut with channel_id := some "UC0000000000000000000000" } : ChannelInfo).channel_id = some "UC0000000000000000000000") ∧
    ((∃ m, c4ChannelImm.set_channel_name "m" = .error (.attributeError m)) ∧
      runSet c4ChannelImm (c4ChannelImm.set_channel_name "m") = c4ChannelImm) ∧
    (c4ChannelEmpty.set_channel_name "m" = .ok { c4ChannelEmpty with channel_name := some "m" }) ∧
    (c4ChannelMut.set_channel_name "m" = .ok { c4ChannelMut with channel_name := some "m" } ∧
      ({ c4ChannelMut with channel_name := some "m" } : ChannelInfo).channel_name = some "m") ∧
    ((∃ m, c4ChannelImm.set_html ⟨false, some "w", some "x", some "y", some "z"⟩ = .error (.attributeError m)) ∧
      runSet c4ChannelImm (c4ChannelImm.set_html ⟨false, some "w", some "x", some "y", some "z"⟩) = c4ChannelImm) ∧
    (c4ChannelEmpty.set_html ⟨false, some "w", some "x", some "y", some "z"⟩ = .ok { c4ChannelEmpty with html := some { (⟨false, some "w", some "x", some "y", some "z"⟩ : HtmlDict) with immutable := c4ChannelEmpty.immutable } }) ∧
    (c4ChannelMut.set_html ⟨false, some "w", some "x", some "y", some "z"⟩ = .ok { c4ChannelMut with html := some { (⟨false, some "w", some "x", some "y", some "z"⟩ : HtmlDict) with immutable := c4ChannelMut.immutable } } ∧
      ({ c4ChannelMut with html := some { (⟨false, some "w", some "x", some "y", some "z"⟩ : HtmlDict) with immutable := c4ChannelMut.immutable } } : ChannelInfo).html = some { (⟨false, some "w", some "x", some "y", some "z"⟩ : HtmlDict) with immutable := c4ChannelMut.immutable }) ∧
    ((∃ m, c4ChannelImm.set_last_updated ⟨5, some 0⟩ 10 = .error (.attributeError m)) ∧
      runSet c4ChannelImm (c4ChannelImm.set_last_updated ⟨5, some 0⟩ 10) = c4ChannelImm) ∧
    (c4ChannelEmpty.set_last_updated ⟨5, some 0⟩ 10 = .ok { c4ChannelEmpty with last_updated := some ⟨5, some 0⟩ }) ∧
    (c4ChannelMut.set_last_updated ⟨5, some 0⟩ 10 = .ok { c4ChannelMut with last_updated := some ⟨5, some 0⟩ } ∧
      ({ c4ChannelMut with last_updated := some ⟨5, some 0⟩ } : ChannelInfo).last_updated = some (⟨5, some 0⟩ : DT)) ∧
    ((∃ m, c4VideoImm.set_channel_id "UC0000000000000000000000" = .error (.attributeError m)) ∧
      runSet c4VideoImm (c4VideoImm.set_channel_id "UC0000000000000000000000") = c4VideoImm) ∧
    (c4VideoEmpty.set_channel_id "UC0000000000000000000000" = .ok { c4VideoEmpty with channel_id := some "UC0000000000000000000000" }) ∧
    (c4VideoMut.set_channel_id "UC0000000000000000000000" = .ok { c4VideoMut with channel_id := some "UC0000000000000000000000" } ∧
      ({ c4VideoMut with channel_id := some "UC0000000000000000000000" } : VideoInfo).channel_id = some "UC0000000000000000000000") ∧
    ((∃ m, c4VideoImm.set_channel_name "m" = .error (.attributeError m)) ∧
      runSet c4VideoImm (c4VideoImm.set_channel_name "m") = c4VideoImm) ∧
    (c4VideoEmpty.set_channel_name "m" = .ok { c4VideoEmpty with channel_name := some "m" }) ∧
    (c4VideoMut.set_channel_name "m" = .ok { c4VideoMut with channel_name := some "m" } ∧
      ({ c4VideoMut with channel_name := some "m" } : VideoInfo).channel_name = some "m") ∧
    ((∃ m, c4VideoImm.set_video_id "bbbbbbbbbbb" = .error (.attributeError m)) ∧
      runSet c4VideoImm (c4VideoImm.set_video_id "bbbbbbbbbbb") = c4VideoImm) ∧
    (c4VideoEmpty.set_video_id "bbbbbbbbbbb" = .ok { c4VideoEmpty with video_id := some "bbbbbbbbbbb" }) ∧
    (c4VideoMut.set_video_id "bbbbbbbbbbb" = .ok { c4VideoMut with video_id := some "bbbbbbbbbbb" } ∧
      ({ c4VideoMut with video_id := some "bbbbbbbbbbb" } : VideoInfo).video_id = some "bbbbbbbbbbb") ∧
    ((∃ m, c4VideoImm.set_video_title "m" = .error (.attributeError m)) ∧
      runSet c4VideoImm (c4VideoImm.set_video_title "m") = c4VideoImm) ∧
    (c4VideoEmpty.set_video_title "m" = .ok { c4VideoEmpty with video_title := some "m" }) ∧
    (c4VideoMut.set_video_title "m" = .ok { c4VideoMut with video_title := some "m" } ∧
      ({ c4VideoMut with video_title := some "m" } : VideoInfo).video_title = some "m") ∧
    ((∃ m, c4VideoImm.set_publish_date ⟨1, some 0⟩ = .error (.attributeError m)) ∧
      runSet c4VideoImm (c4VideoImm.set_publish_date ⟨1, some 0⟩) = c4VideoImm) ∧
    (c4VideoEmpty.set_publish_date ⟨1, some 0⟩ = .ok { c4VideoEmpty with publish_date := some ⟨1, some 0⟩ }) ∧
    (c4VideoMut.set_publish_date ⟨1, some 0⟩ = .ok { c4VideoMut with publish_date := some ⟨1, some 0⟩ } ∧
      ({ c4VideoMut with publish_date := some ⟨1, some 0⟩ } : VideoInfo).publish_date = some (⟨1, some 0⟩ : DT)) ∧
    ((∃ m, c4VideoImm.set_last_updated ⟨2, some 0⟩ 10 = .error (.attributeError m)) ∧
      runSet c4VideoImm (c4VideoImm.set_last_updated ⟨2, some 0⟩ 10) = c4VideoImm) ∧
    (c4VideoEmpty.set_last_updated ⟨2, some 0⟩ 10 = .ok { c4VideoEmpty with last_updated := some ⟨2, some 0⟩ }) ∧
    (c4VideoMut.set_last_updated ⟨2, some 0⟩ 10 = .ok { c4VideoMut with last_updated := some ⟨2, some 0⟩ } ∧
      ({ c4VideoMut with last_updated := some ⟨2, some 0⟩ } : VideoInfo).last_updated = some (⟨2, some 0⟩ : DT)) ∧
    ((∃ m, c4VideoImm.set_duration 7 = .error (.attributeError m)) ∧
      runSet c4VideoImm (c4VideoImm.set_duration 7) = c4VideoImm) ∧
    (c4VideoEmpty.set_duration 7 = .ok { c4VideoEmpty with duration := some 7 }) ∧
    (c4VideoMut.set_duration 7 = .ok { c4VideoMut with duration := some 7 } ∧
      ({ c4VideoMut with duration := some 7 } : VideoInfo).duration = some (7 : Int)) ∧
    ((∃ m, c4VideoImm.set_description "m" = .error (.attributeError m)) ∧
      runSet c4VideoImm (c4VideoImm.set_description "m") = c4VideoImm) ∧
    (c4VideoEmpty.set_description "m" = .ok { c4VideoEmpty with description := some "m" }) ∧
    (c4VideoMut.set_description "m" = .ok { c4VideoMut with description := some "m" } ∧
      ({ c4VideoMut with description := some "m" } : VideoInfo).description = some "m") ∧
    ((∃ m, c4VideoImm.set_keywords ["x"] = .error (.attributeError m)) ∧
      runSet c4VideoImm (c4VideoImm.set_keywords ["x"]) = c4VideoImm) ∧
    (c4VideoEmpty.set_keywords ["x"] = .ok { c4VideoEmpty with keywords := some ["x"] }) ∧
    (c4VideoMut.set_keywords ["x"] = .ok { c4VideoMut with keywords := some ["x"] } ∧
      ({ c4VideoMut with keywords := some ["x"] } : VideoInfo).keywords = some ["x"]) ∧
    ((∃ m, c4VideoImm.set_thumbnail_url (fun _ => true) "m" = .error (.attributeError m)) ∧
      runSet c4VideoImm (c4VideoImm.set_thumbnail_url (fun _ => true) "m") = c4VideoImm) ∧
    (c4VideoEmpty.set_thumbnail_url (fun _ => true) "m" = .ok { c4VideoEmpty with thumbnail_url := some "m" }) ∧
    (c4VideoMut.set_thumbnail_url (fun _ => true) "m" = .ok { c4VideoMut with thumbnail_url := some "m" } ∧
      ({ c4VideoMut with thumbnail_url := some "m" } : VideoInfo).thumbnail_url = some "m") :=
  ⟨(immutable_reassignment_guard.1 c4HtmlImm "z").1 rfl rfl,
   (immutable_reassignment_guard.1 c4HtmlEmpty "z").2.1 trivial rfl,
   (immutable_reassignment_guard.1 c4HtmlMut "z").2.2 trivial rfl,
   (immutable_reassignment_guard.2.1 c4HtmlImm "z").1 rfl rfl,
   (immutable_reassignment_guard.2.1 c4HtmlEmpty "z").2.1 trivial rfl,
   (immutable_reassignment_guard.2.1 c4HtmlMut "z").2.2 trivial rfl,
   (immutable_reassignment_guard.2.2.1 c4HtmlImm "z").1 rfl rfl,
   (immutable_reassignment_guard.2.2.1 c4HtmlEmpty "z").2.1 trivial rfl,
   (immutable_reassignment_guard.2.2.1 c4HtmlMut "z").2.2 trivial rfl,
   (immutable_reassignment_guard.2.2.2.1 c4HtmlImm "z").1 rfl rfl,
   (immutable_reassignment_guard.2.2.2.1 c4HtmlEmpty "z").2.1 trivial rfl,
   (immutable_reassignment_guard.2.2.2.1 c4HtmlMut "z").2.2 trivial rfl,
   (immutable_reassignment_guard.2.2.2.2.1 c4ChannelImm "UC0000000000000000000000").1 rfl rfl,
   (immutable_reassignment_guard.2.2.2.2.1 c4ChannelEmpty "UC0000000000000000000000").2.1 (by decide) rfl,
   (immutable_reassignment_guard.2.2.2.2.1 c4ChannelMut "UC0000000000000000000000").2.2 (by decide) rfl,
   (immutable_reassignment_guard.2.2.2.2.2.1 c4ChannelImm "m").1 rfl rfl,
   (immutable_reassignment_guard.2.2.2.2.2.1 c4ChannelEmpty "m").2.1 (by decide) rfl,
   (immutable_reassignment_guard.2.2.2.2.2.1 c4ChannelMut "m").2.2 (by decide) rfl,
   (immutable_reassignment_guard.2.2.2.2.2.2.1 c4ChannelImm ⟨false, some "w", some "x", some "y", some "z"⟩).1 rfl rfl,
   (immutable_reassignment_guard.2.2.2.2.2.2.1 c4ChannelEmpty ⟨false, some "w", some "x", some "y", some "z"⟩).2.1 trivial rfl,
   (immutable_reassignment_guard.2.2.2.2.2.2.1 c4ChannelMut ⟨false, some "w", some "x", some "y", some "z"⟩).2.2 trivial rfl,
   (immutable_reassignment_guard.2.2.2.2.2.2.2.1 c4ChannelImm ⟨5, some 0⟩ 10).1 rfl rfl,
   (immutable_reassignment_guard.2.2.2.2.2.2.2.1 c4ChannelEmpty ⟨5, some 0⟩ 10).2.1 ⟨rfl, by decide⟩ rfl,
   (immutable_reassignment_guard.2.2.2.2.2.2.2.1 c4ChannelMut ⟨5, some 0⟩ 10).2.2 ⟨rfl, by decide⟩ rfl,
   (immutable_reassignment_guard.2.2.2.2.2.2.2.2.1 c4VideoImm "UC0000000000000000000000").1 rfl rfl,
   (immutable_reassignment_guard.2.2.2.2.2.2.2.2.1 c4VideoEmpty "UC0000000000000000000000").2.1 (by decide) rfl,
   (immutable_reassignment_guard.2.2.2.2.2.2.2.2.1 c4VideoMut "UC0000000000000000000000").2.2 (by decide) rfl,
   (immutable_reassignment_guard.2.2.2.2.2.2.2.2.2.1 c4VideoImm "m").1 rfl rfl,
   (immutable_reassignment_guard.2.2.2.2.2.2.2.2.2.1 c4VideoEmpty "m").2.1 (by decide) rfl,
   (immutable_reassignment_guard.2.2.2.2.2.2.2.2.2.1 c4VideoMut "m").2.2 (by decide) rfl,
   (immutable_reassignment_guard.2.2.2.2.2.2.2.2.2.2.1 c4VideoImm "bbbbbbbbbbb").1 rfl rfl,
   (immutable_reassignment_guard.2.2.2.2.2.2.2.2.2.2.1 c4VideoEmpty "bbbbbbbbbbb").2.1 (by decide) rfl,
   (immutable_reassignment_guard.2.2.2.2.2.2.2.2.2.2.1 c4VideoMut "bbbbbbbbbbb").2.2 (by decide) rfl,
   (immutable_reassignment_guard.2.2.2.2.2.2.2.2.2.2.2.1 c4VideoImm "m").1 rfl rfl,
   (immutable_reassignment_guard.2.2.2.2.2.2.2.2.2.2.2.1 c4VideoEmpty "m").2.1 (by decide) rfl,
   (immutable_reassignment_guard.2.2.2.2.2.2.2.2.2.2.2.1 c4VideoMut "m").2.2 (by decide) rfl,
   (immutable_reassignment_guard.2.2.2.2.2.2.2.2.2.2.2.2.1 c4VideoImm ⟨1, some 0⟩).1 rfl rfl,
   (immutable_reassignment_guard.2.2.2.2.2.2.2.2.2.2.2.2.1 c4VideoEmpty ⟨1, some 0⟩).2.1 ⟨rfl, trivial⟩ rfl,
   (immutable_reassignment_guard.2.2.2.2.2.2.2.2.2.2.2.2.1 c4VideoMut ⟨1, some 0⟩).2.2 ⟨rfl, (by decide : pyDtGt ⟨1, some 0⟩ ⟨2, some 0⟩ = Except.ok false)⟩ rfl,
   (immutable_reassignment_guard.2.2.2.2.2.2.2.2.2.2.2.2.2.1 c4VideoImm ⟨2, some 0⟩ 10).1 rfl rfl,
   (immutable_reassignment_guard.2.2.2.2.2.2.2.2.2.2.2.2.2.1 c4VideoEmpty ⟨2, some 0⟩ 10).2.1 ⟨rfl, by decide, trivial⟩ rfl,
   (immutable_reassignment_guard.2.2.2.2.2.2.2.2.2.2.2.2.2.1 c4VideoMut ⟨2, some 0⟩ 10).2.2 ⟨rfl, by decide, (by decide : pyDtLt ⟨2, some 0⟩ ⟨1, some 0⟩ = Except.ok false)⟩ rfl,
   (immutable_reassignment_guard.2.2.2.2.2.2.2.2.2.2.2.2.2.2.1 c4VideoImm 7).1 rfl rfl,
   (immutable_reassignment_guard.2.2.2.2.2.2.2.2.2.2.2.2.2.2.1 c4VideoEmpty 7).2.1 (by decide) rfl,
   (immutable_reassignment_guard.2.2.2.2.2.2.2.2.2.2.2.2.2.2.1 c4VideoMut 7).2.2 (by decide) rfl,
   (immutable_reassignment_guard.2.2.2.2.2.2.2.2.2.2.2.2.2.2.2.1 c4VideoImm "m").1 rfl rfl,
   (immutable_reassignment_guard.2.2.2.2.2.2.2.2.2.2.2.2.2.2.2.1 c4VideoEmpty "m").2.1 trivial rfl,
   (immutable_reassignment_guard.2.2.2.2.2.2.2.2.2.2.2.2.2.2.2.1 c4VideoMut "m").2.2 trivial rfl,
   (immutable_reassignment_guard.2.2.2.2.2.2.2.2.2.2.2.2.2.2.2.2.1 c4VideoImm ["x"]).1 rfl rfl,
   (immutable_reassignment_guard.2.2.2.2.2.2.2.2.2.2.2.2.2.2.2.2.1 c4VideoEmpty ["x"]).2.1 (by decide) rfl,
   (immutable_reassignment_guard.2.2.2.2.2.2.2.2.2.2.2.2.2.2.2.2.1 c4VideoMut ["x"]).2.2 (by decide) rfl,
   (immutable_reassignment_guard.2.2.2.2.2.2.2.2.2.2.2.2.2.2.2.2.2 c4VideoImm (fun _ => true) "m").1 rfl rfl,
   (immutable_reassignment_guard.2.2.2.2.2.2.2.2.2.2.2.2.2.2.2.2.2 c4VideoEmpty (fun _ => true) "m").2.1 rfl rfl,
   (immutable_reassignment_guard.2.2.2.2.2.2.2.2.2.2.2.2.2.2.2.2.2 c4VideoMut (fun _ => true) "m").2.2 rfl rfl⟩
